import Mathlib

/-!
# pointcloud_viewer: the update loop, the frame hand-off and the text export

A shallow embedding of `pointcloud_tools/src/pointcloud_viewer.cpp`.

* Floating-point coordinates and voxel sizes are idealised as rationals.
* The globals of the program and the locals of `updateVisualization` that live across
  iterations of its `while(true)` loop form the record `ViewerState`.
* One iteration of that loop is the function `updateVisualization`; what the viewer and the
  file system are asked to do during an iteration is returned as a list of `Effect`s.
* Library calls (PCL, the C++ standard library) are modelled by small functions named after
  the call they stand for.
-/

namespace PointcloudViewer

/-! ## Data model -/

/-- The point type `pcl::PointXYZ` (typedef `Point`). -/
structure Point where
  x : ℚ
  y : ℚ
  z : ℚ
deriving DecidableEq, Repr

/-- The point type `pcl::PointXYZRGB` (typedef `PointRGB`): a position and the four bytes
`b`, `g`, `r`, `a` of the colour word, over which the `float` member `rgb` is laid. -/
structure PointRGB where
  x : ℚ
  y : ℚ
  z : ℚ
  r : Nat
  g : Nat
  b : Nat
  a : Nat
deriving DecidableEq, Repr

/-- The 32-bit word `0xAARRGGBB` that the member `rgb` of `pcl::PointXYZRGB` overlays. -/
def PointRGB.rgba (p : PointRGB) : Nat :=
  p.a * 16777216 + p.r * 65536 + p.g * 256 + p.b

/-- The comparison `rgb == 0` of the `float` member `rgb` with zero (line 234; line 157 tests
its negation `rgb != 0`): a `float` compares equal to zero exactly when its bits are those of
`+0.0` (all zero) or of `-0.0` (only the sign bit, `0x80000000`); every other pattern, a
denormal or a NaN included, compares unequal. -/
def PointRGB.rgbIsZero (p : PointRGB) : Prop :=
  p.rgba = 0 ∨ p.rgba = 2147483648

instance (p : PointRGB) : Decidable p.rgbIsZero :=
  inferInstanceAs (Decidable (p.rgba = 0 ∨ p.rgba = 2147483648))

/-- Typedef `PointCloud`: the `points` vector of a `pcl::PointCloud<pcl::PointXYZ>`. -/
abbrev PointCloud := List Point

/-- Typedef `PointCloudRGB`: the `points` vector of a `pcl::PointCloud<pcl::PointXYZRGB>`. -/
abbrev PointCloudRGB := List PointRGB

/-- A message `sensor_msgs::PointCloud2` behind a shared pointer.  `ref` stands for the address
of the shared object (what `==` on two shared pointers compares), `fields` for the names of the
declared point fields, and `points` for the decoded samples (the colour bytes of a sample are
meaningful only when a field `rgb` is declared). -/
structure PointCloud2 where
  ref : Nat
  width : Nat
  height : Nat
  fields : List String
  points : List PointRGB
deriving DecidableEq, Repr

/-- One row of the text file, as produced by one `f_webgl << ... << std::endl` statement:
`xyz` is the row `x,y,z` and `xyzrgb` the row `x,y,z,r,g,b`, each ended by a newline. -/
inductive Line where
  | xyz (x y z : ℚ)
  | xyzrgb (x y z : ℚ) (r g b : Nat)
deriving DecidableEq, Repr

/-- What one iteration of the update loop asks of the viewer and of the file system. -/
inductive Effect where
  | removePointCloud
  | initCamera (cloud : PointCloudRGB)
  | addPointCloudRGB (cloud : PointCloudRGB)
  | addPointCloudXYZ (cloud : PointCloud)
  | savePCDFileRGB (filename : String) (cloud : PointCloudRGB)
  | savePCDFileXYZ (filename : String) (cloud : PointCloud)
  | logSaved (filename : String)
  | logProblem (filename : String)
  | writeText (filename : String) (lines : List Line)
deriving DecidableEq, Repr

/-- The globals of the program (`cloud_`, `cloud_old_`, `viewer_initialized_`, `save_cloud_`,
`save_cloud_webgl_`, `pcd_filename_`, `counter_`, `max_ascii_file_size_`) and the locals of
`updateVisualization` declared before its loop (`cloud_xyz`, `cloud_xyz_rgb`, `rgb`,
`fields`). -/
structure ViewerState where
  cloud_ : Option PointCloud2
  cloud_old_ : Option PointCloud2
  viewer_initialized_ : Bool
  save_cloud_ : Bool
  save_cloud_webgl_ : Bool
  pcd_filename_ : String
  counter_ : Int
  max_ascii_file_size_ : Int
  cloud_xyz : PointCloud
  cloud_xyz_rgb : PointCloudRGB
  rgb : Bool
  fields : List String
deriving DecidableEq, Repr

/-- What the environment contributes to one iteration of the update loop: whether
`viewer.spinOnce` delivers a key-down event of the space bar, whether `pcl::io::savePCDFile`
returns `0`, and how many iterations of the downsampling loop are followed before the
iteration is reported as not finished. -/
structure Env where
  space : Bool
  pcd_ok : Bool
  fuel : Nat
deriving DecidableEq, Repr

/-- How one iteration of the update loop ends: with `continue` before any frame is processed
(`idle`), at `counter_++` (`done`), at a read of `cloud_xyz_rgb.points[0]` outside the buffer
(`fault`, undefined behaviour in C++; the model stops there), or inside the downsampling loop
with the fuel used up (`hang`). -/
inductive Outcome where
  | idle (s : ViewerState)
  | done (s : ViewerState) (fx : List Effect)
  | fault (fx : List Effect)
  | hang (fx : List Effect)
deriving DecidableEq, Repr

/-! ## Library calls -/

/-- Position of `name` in a list of field names, `-1` when absent. -/
def fieldIndex (name : String) : List String → Int
  | [] => -1
  | f :: fs =>
    if f = name then 0
    else if fieldIndex name fs = -1 then -1 else fieldIndex name fs + 1

/-- The call `pcl::getFieldIndex (msg, name)` on a message. -/
def getFieldIndex (c : PointCloud2) (name : String) : Int :=
  fieldIndex name c.fields

/-- The field list of the point type `pcl::PointXYZRGB`. -/
def fieldsPointRGB : List String := ["x", "y", "z", "rgb"]

/-- The field list of the point type `pcl::PointXYZ`. -/
def fieldsPoint : List String := ["x", "y", "z"]

/-- The call `pcl::getFieldIndex (cloud_xyz_rgb, name, fields)`: it fills `fields` from the
point TYPE of the cloud and searches it; the contents of the cloud play no part. -/
def getFieldIndexRGB (name : String) : Int × List String :=
  (fieldIndex name fieldsPointRGB, fieldsPointRGB)

/-- Drop the colour of a sample. -/
def PointRGB.toPoint (p : PointRGB) : Point :=
  { x := p.x, y := p.y, z := p.z }

/-- The call `pcl::fromROSMsg (msg, cloud_xyz_rgb)`. -/
def fromROSMsgRGB (c : PointCloud2) : PointCloudRGB :=
  c.points

/-- The call `pcl::fromROSMsg (msg, cloud_xyz)`. -/
def fromROSMsgXYZ (c : PointCloud2) : PointCloud :=
  c.points.map PointRGB.toPoint

/-- The call `pcl::copyPointCloud (cloud_xyz_rgb, cloud_xyz)`. -/
def copyPointCloud (cloud : PointCloudRGB) : PointCloud :=
  cloud.map PointRGB.toPoint

/-- Equality of two shared pointers: both null, or both pointing at the same object. -/
def ptrEq (a b : Option PointCloud2) : Bool :=
  a.map PointCloud2.ref == b.map PointCloud2.ref

/-- The value `std::string::npos` of a 64-bit `size_t`. -/
def npos : Nat := 2 ^ 64 - 1

/-- Index of the last occurrence of `c` in a character sequence. -/
def lastIndexOf (c : Char) : List Char → Option Nat
  | [] => none
  | h :: t =>
    match lastIndexOf c t with
    | some i => some (i + 1)
    | none => if h = c then some 0 else none

/-- The call `s.find_last_of (".")` with a one-character argument `c`. -/
def find_last_of (s : String) (c : Char) : Nat :=
  match lastIndexOf c s.data with
  | some i => i
  | none => npos

/-- Conversion of a `size_t` to `int` (32 bits, two-complement wrap). -/
def toInt32 (n : Nat) : Int :=
  ((n : Int) + 2 ^ 31) % 2 ^ 32 - 2 ^ 31

/-- Conversion of an `int` to `size_t` (64 bits). -/
def toSizeT (i : Int) : Nat :=
  (i % 2 ^ 64).toNat

/-- The call `s.substr (0, count)`. -/
def substr0 (s : String) (count : Nat) : String :=
  String.mk (s.data.take count)

/-! ## The voxel grid -/

/-- The cell of a regular grid of edge `v` that holds a sample. -/
def cellOf (v : ℚ) (p : PointRGB) : Int × Int × Int :=
  (⌊p.x / v⌋, ⌊p.y / v⌋, ⌊p.z / v⌋)

/-- The representative of the samples of one cell: the mean of their positions and of their
colour bytes (integer division, as in a conversion to `uint8_t`). -/
def centroid (ps : PointCloudRGB) : PointRGB :=
  { x := (ps.map PointRGB.x).sum / ps.length
    y := (ps.map PointRGB.y).sum / ps.length
    z := (ps.map PointRGB.z).sum / ps.length
    r := (ps.map PointRGB.r).sum / ps.length
    g := (ps.map PointRGB.g).sum / ps.length
    b := (ps.map PointRGB.b).sum / ps.length
    a := (ps.map PointRGB.a).sum / ps.length }

/-- The distinct cells of a list of cells, each at its first occurrence. -/
def occupiedCells : List (Int × Int × Int) → List (Int × Int × Int)
  | [] => []
  | c :: cs => c :: (occupiedCells cs).filter (fun d => d ≠ c)

/-- Modelled from the spec: `pcl::VoxelGrid<PointRGB>::filter` with leaf size `(v, v, v)` and
`setDownsampleAllData (true)`, a library routine that is not part of the repository.  "Quantize
all points into a regular 3D grid of cell size v, keeping one representative sample per
occupied cell (averaging position and, if present, color, across points in that cell)".  The
representatives are listed in the order in which their cells first occur in the input. -/
def voxelGrid (v : ℚ) (cloud : PointCloudRGB) : PointCloudRGB :=
  (occupiedCells (cloud.map (cellOf v))).map
    (fun c => centroid (cloud.filter (fun p => cellOf v p = c)))

/-- The function `filter` of the program (lines 81--97). -/
def filter (cloud : PointCloudRGB) (voxel_size : ℚ) : PointCloudRGB :=
  voxelGrid voxel_size cloud

/-! ## The text export -/

/-- The locals `file_point_size`, the initial `voxel_size` and `offset` (lines 188--191). -/
def file_point_size : Int := 35

/-- Initial voxel size `0.001`. -/
def voxel_size0 : ℚ := 1 / 1000

/-- Increment `0.0002` of the voxel size. -/
def offset : ℚ := 2 / 10000

/-- The local `desired_points = max_ascii_file_size_ / file_point_size` (C division of two
`int`s truncates towards zero). -/
def desired_points (max_ascii_file_size_ : Int) : Int :=
  Int.tdiv max_ascii_file_size_ file_point_size

/-- The body of the downsampling loop (lines 194--196) on the pair
`(cloud_xyz_rgb, voxel_size)`: the filter is applied to the working cloud, the result is
stored back into the working cloud, and the voxel size grows by `offset`.  The source adds
two `double`s; the sum is idealised as exact, so the voxel size here is the formula
`0.001 + k * 0.0002` itself.  A `double` stops growing once it is large enough to absorb
the increment, so nothing is concluded here from how far the voxel size can grow. -/
def loopBody (st : PointCloudRGB × ℚ) : PointCloudRGB × ℚ :=
  (filter st.1 st.2, st.2 + offset)

/-- The downsampling loop `while (cloud_xyz_rgb.size() > desired_points) ...` (lines
192--197).  The comparison is between a `size_t` and an `int`, so the `int` is converted to
`size_t`.  At most `fuel` iterations are followed; `none` means the condition still held
after them. -/
def downsampleLoop (desired : Int) : Nat → PointCloudRGB × ℚ → Option (PointCloudRGB × ℚ)
  | fuel, st =>
    if st.1.length > toSizeT desired then
      match fuel with
      | 0 => none
      | n + 1 => downsampleLoop desired n (loopBody st)
    else some st

/-- The name of the text file (lines 199--201 and 262--264): `lastindex` is an `int` that
receives the `size_t` result of `find_last_of`, and is converted back to `size_t` as the
count of `substr`. -/
def textFilename (pcd_filename_ : String) : String :=
  let lastindex : Int := toInt32 (find_last_of pcd_filename_ '.')
  let filename := substr0 pcd_filename_ (toSizeT lastindex)
  filename ++ ".txt"

/-- The rows written by the loop of lines 204--212, one per point of the working cloud. -/
def linesRGB (cloud : PointCloudRGB) : List Line :=
  cloud.map (fun p => Line.xyzrgb p.x p.y p.z p.r p.g p.b)

/-- The rows written by the loop of lines 267--272, one per point of `cloud_xyz`. -/
def linesXYZ (cloud : PointCloud) : List Line :=
  cloud.map (fun p => Line.xyz p.x p.y p.z)

/-! ## The hand-off of frames -/

/-- The callback `cloud_cb` (lines 71--79): the current frame is overwritten. -/
def cloud_cb (s : ViewerState) (cloud : PointCloud2) : ViewerState :=
  { s with cloud_ := some cloud }

/-- The mailbox seen on its own: the pair `(cloud_, cloud_old_)`. -/
structure Mailbox where
  cloud_ : Option PointCloud2
  cloud_old_ : Option PointCloud2
deriving DecidableEq, Repr

/-- The mailbox part of a state. -/
def ViewerState.mailbox (s : ViewerState) : Mailbox :=
  { cloud_ := s.cloud_, cloud_old_ := s.cloud_old_ }

/-- The effect of `cloud_cb` on the mailbox. -/
def Mailbox.put (m : Mailbox) (cloud : PointCloud2) : Mailbox :=
  { m with cloud_ := some cloud }

/-- The head of the update loop on the mailbox (lines 128--149): `continue` when no frame was
received, when the frame has width `0`, or when the frame is the one seen last; otherwise the
frame is taken and remembered in `cloud_old_`. -/
def Mailbox.take_if_new (m : Mailbox) : Option PointCloud2 × Mailbox :=
  match m.cloud_ with
  | none => (none, m)
  | some c =>
    if c.width ≤ 0 then (none, m)
    else if ptrEq m.cloud_old_ m.cloud_ then (none, m)
    else (some c, { m with cloud_old_ := m.cloud_ })

/-- An operation on the mailbox. -/
inductive MailboxOp where
  | put (cloud : PointCloud2)
  | poll
deriving DecidableEq, Repr

/-- The mailbox after one operation. -/
def Mailbox.step (m : Mailbox) : MailboxOp → Mailbox
  | .put c => m.put c
  | .poll => m.take_if_new.2

/-- What one operation yields: nothing for a put, the result of `take_if_new` for a poll. -/
def Mailbox.yield (m : Mailbox) : MailboxOp → Option PointCloud2
  | .put _ => none
  | .poll => m.take_if_new.1

/-- The mailbox after a sequence of operations. -/
def Mailbox.exec (m : Mailbox) (ops : List MailboxOp) : Mailbox :=
  ops.foldl Mailbox.step m

/-- What each operation of a sequence yields, in order. -/
def Mailbox.yields : Mailbox → List MailboxOp → List (Option PointCloud2)
  | _, [] => []
  | m, op :: ops => m.yield op :: (m.step op).yields ops

/-- The mailbox at program start: both pointers null. -/
def Mailbox.empty : Mailbox :=
  { cloud_ := none, cloud_old_ := none }

/-- The frame of the most recent put of a sequence of operations. -/
def lastPut : List MailboxOp → Option PointCloud2
  | [] => none
  | .put c :: ops => (lastPut ops).orElse (fun _ => some c)
  | .poll :: ops => lastPut ops

/-- The last element of a list of poll results that is a frame. -/
def lastSome : List (Option PointCloud2) → Option PointCloud2
  | [] => none
  | r :: rs => (lastSome rs).orElse (fun _ => r)

/-- The frame most recently yielded by a poll of a sequence of operations run from the empty
mailbox. -/
def lastYield (ops : List MailboxOp) : Option PointCloud2 :=
  lastSome (Mailbox.empty.yields ops)

/-- What a poll yields after a sequence of operations run from the empty mailbox. -/
def pollAfter (ops : List MailboxOp) : Option PointCloud2 :=
  (Mailbox.empty.exec ops).take_if_new.1

/-! ## One iteration of the update loop -/

/-- The handler `keyboardEventOccurred` (lines 99--103) on a key-down event of the space bar. -/
def keyboardEventOccurred (s : ViewerState) : ViewerState :=
  { s with save_cloud_ := true }

/-- The call `viewer.spinOnce (1)` (line 131): a pending key event reaches the handler. -/
def spinOnce (s : ViewerState) (e : Env) : ViewerState :=
  if e.space then keyboardEventOccurred s else s

/-- Lines 138--149: the frame is converted into `cloud_xyz_rgb` when it declares a field
`rgb`, into `cloud_xyz` otherwise (the other buffer keeps what it held), and it is remembered
in `cloud_old_`. -/
def convert (s : ViewerState) (c : PointCloud2) : ViewerState :=
  if getFieldIndex c "rgb" ≠ -1 then
    { s with rgb := true, cloud_xyz_rgb := fromROSMsgRGB c, cloud_old_ := s.cloud_ }
  else
    { s with rgb := false, cloud_xyz := fromROSMsgXYZ c, fields := fieldsPoint,
             cloud_old_ := s.cloud_ }

/-- The condition of lines 156--157, `rgb && getFieldIndex (...) != -1 &&
cloud_xyz_rgb.points[0].rgb != 0`, evaluated left to right with short circuit.  The result is
`none` when `points[0]` is read from an empty buffer. -/
def rgbUsable (s : ViewerState) : Option Bool × ViewerState :=
  if s.rgb then
    let s1 := { s with fields := (getFieldIndexRGB "rgb").2 }
    if (getFieldIndexRGB "rgb").1 ≠ -1 then
      match s1.cloud_xyz_rgb.head? with
      | none => (none, s1)
      | some p => (some (decide (¬ p.rgbIsZero)), s1)
    else (some false, s1)
  else (some false, s)

/-- Lines 160--168 and, word for word, lines 221--229: the camera is initialised from
`cloud_xyz_rgb` when `viewer_initialized_` is false. -/
def initCameraOnce (s : ViewerState) : ViewerState × List Effect :=
  if !s.viewer_initialized_ then
    ({ s with viewer_initialized_ := true }, [Effect.initCamera s.cloud_xyz_rgb])
  else (s, [])

/-- The log line after `pcl::io::savePCDFile`. -/
def logSave (ok : Bool) (filename : String) : Effect :=
  if ok then Effect.logSaved filename else Effect.logProblem filename

/-- Lines 159--216: the branch taken when the condition of lines 156--157 holds. -/
def colouredBranch (s : ViewerState) (e : Env) (fx : List Effect) : Outcome :=
  let s1 := (initCameraOnce s).1
  let fx1 := fx ++ (initCameraOnce s).2 ++ [Effect.addPointCloudRGB s1.cloud_xyz_rgb]
  if s1.save_cloud_ && decide (s1.cloud_xyz_rgb.length > 0) then
    let fx2 := fx1 ++ [Effect.savePCDFileRGB s1.pcd_filename_ s1.cloud_xyz_rgb,
                       logSave e.pcd_ok s1.pcd_filename_]
    let s2 := { s1 with save_cloud_ := false }
    if s2.save_cloud_webgl_ then
      match downsampleLoop (desired_points s2.max_ascii_file_size_) e.fuel
          (s2.cloud_xyz_rgb, voxel_size0) with
      | none => Outcome.hang fx2
      | some st =>
        Outcome.done { s2 with cloud_xyz_rgb := st.1, counter_ := s2.counter_ + 1 }
          (fx2 ++ [Effect.writeText (textFilename s2.pcd_filename_) (linesRGB st.1)])
    else Outcome.done { s2 with counter_ := s2.counter_ + 1 } fx2
  else Outcome.done { s1 with counter_ := s1.counter_ + 1 } fx1

/-- Lines 240--275: the display and the export of `cloud_xyz`. -/
def geometryRest (s : ViewerState) (e : Env) (fx : List Effect) : Outcome :=
  let fx1 := fx ++ [Effect.addPointCloudXYZ s.cloud_xyz]
  if s.save_cloud_ && decide (s.cloud_xyz.length > 0) then
    let fx2 := fx1 ++ [Effect.savePCDFileXYZ s.pcd_filename_ s.cloud_xyz,
                       logSave e.pcd_ok s.pcd_filename_]
    let s2 := { s with save_cloud_ := false }
    if s2.save_cloud_webgl_ then
      Outcome.done { s2 with counter_ := s2.counter_ + 1 }
        (fx2 ++ [Effect.writeText (textFilename s2.pcd_filename_) (linesXYZ s2.cloud_xyz)])
    else Outcome.done { s2 with counter_ := s2.counter_ + 1 } fx2
  else Outcome.done { s with counter_ := s.counter_ + 1 } fx1

/-- Lines 219--276: the branch taken when the condition of lines 156--157 fails.  The test
of line 232 looks at the point type of `cloud_xyz_rgb`, and line 234 reads
`cloud_xyz_rgb.points[0]` whatever the current frame was converted into. -/
def geometryBranch (s : ViewerState) (e : Env) (fx : List Effect) : Outcome :=
  let s1 := (initCameraOnce s).1
  let fx1 := fx ++ (initCameraOnce s).2
  let s2 := { s1 with fields := (getFieldIndexRGB "rgb").2 }
  if (getFieldIndexRGB "rgb").1 ≠ -1 then
    match s2.cloud_xyz_rgb.head? with
    | none => Outcome.fault fx1
    | some p =>
      if p.rgbIsZero then
        geometryRest { s2 with cloud_xyz := copyPointCloud s2.cloud_xyz_rgb } e fx1
      else geometryRest s2 e fx1
  else geometryRest s2 e fx1

/-- One iteration of the loop of `updateVisualization` (lines 125--278). -/
def updateVisualization (s : ViewerState) (e : Env) : Outcome :=
  match s.cloud_ with
  | none => Outcome.idle s
  | some c =>
    if c.width ≤ 0 then Outcome.idle s
    else
      let s1 := spinOnce s e
      if ptrEq s1.cloud_old_ s1.cloud_ then Outcome.idle s1
      else
        let s2 := convert s1 c
        match (rgbUsable s2).1 with
        | none => Outcome.fault [Effect.removePointCloud]
        | some true => colouredBranch (rgbUsable s2).2 e [Effect.removePointCloud]
        | some false => geometryBranch (rgbUsable s2).2 e [Effect.removePointCloud]

/-- The state set up by `main` (lines 293--301) and by the declarations at the head of
`updateVisualization` (lines 107--114), for given values of the three parameters. -/
def initialState (pcd_filename_ : String) (save_cloud_webgl_ : Bool)
    (max_ascii_file_size_ : Int) : ViewerState :=
  { cloud_ := none, cloud_old_ := none, viewer_initialized_ := false, save_cloud_ := false,
    save_cloud_webgl_ := save_cloud_webgl_, pcd_filename_ := pcd_filename_, counter_ := 0,
    max_ascii_file_size_ := max_ascii_file_size_, cloud_xyz := [], cloud_xyz_rgb := [],
    rgb := false, fields := [] }

/-- What happens to the program: the subscriber thread delivers a frame, or the display
thread runs one iteration of its loop. -/
inductive Event where
  | frame (cloud : PointCloud2)
  | tick (e : Env)
deriving DecidableEq, Repr

/-- The outcomes of the iterations of a session, in order.  The session ends with the first
iteration that faults or hangs. -/
def session : ViewerState → List Event → List Outcome
  | _, [] => []
  | s, Event.frame c :: evs => session (cloud_cb s c) evs
  | s, Event.tick e :: evs =>
    match updateVisualization s e with
    | Outcome.idle s1 => Outcome.idle s1 :: session s1 evs
    | Outcome.done s1 fx => Outcome.done s1 fx :: session s1 evs
    | Outcome.fault fx => [Outcome.fault fx]
    | Outcome.hang fx => [Outcome.hang fx]

/-- The effects of an outcome. -/
def Outcome.effects : Outcome → List Effect
  | Outcome.idle _ => []
  | Outcome.done _ fx => fx
  | Outcome.fault fx => fx
  | Outcome.hang fx => fx

/-- Whether an iteration processed a frame (it went past both `continue`s). -/
def Outcome.processed : Outcome → Bool
  | Outcome.idle _ => false
  | _ => true

/-- Number of camera initialisations among some effects. -/
def cameraInits : List Effect → Nat
  | [] => 0
  | Effect.initCamera _ :: fx => cameraInits fx + 1
  | _ :: fx => cameraInits fx

/-- The contents of the text files written among some effects. -/
def textFiles : List Effect → List (String × List Line)
  | [] => []
  | Effect.writeText name lines :: fx => (name, lines) :: textFiles fx
  | _ :: fx => textFiles fx

/-- The native files saved among some effects, with the cloud handed to `savePCDFile`:
coloured ones on the left, geometry-only ones on the right. -/
def nativeFiles : List Effect → List (String × (PointCloudRGB ⊕ PointCloud))
  | [] => []
  | Effect.savePCDFileRGB name c :: fx => (name, Sum.inl c) :: nativeFiles fx
  | Effect.savePCDFileXYZ name c :: fx => (name, Sum.inr c) :: nativeFiles fx
  | _ :: fx => nativeFiles fx

/-- The clouds handed to the viewer among some effects: coloured ones on the left,
geometry-only ones on the right. -/
def shown : List Effect → List (PointCloudRGB ⊕ PointCloud)
  | [] => []
  | Effect.addPointCloudRGB c :: fx => Sum.inl c :: shown fx
  | Effect.addPointCloudXYZ c :: fx => Sum.inr c :: shown fx
  | _ :: fx => shown fx

/-- Marks the first `true` of a list with `1` and everything else with `0`. -/
def markFirst : List Bool → List Nat
  | [] => []
  | true :: bs => 1 :: bs.map (fun _ => 0)
  | false :: bs => 0 :: markFirst bs

/-- The state an outcome leaves behind, when the iteration came to its end. -/
def Outcome.state? : Outcome → Option ViewerState
  | Outcome.idle s => some s
  | Outcome.done s _ => some s
  | Outcome.fault _ => none
  | Outcome.hang _ => none

/-! ## Sample inputs -/

/-- A default environment: no key pressed, the native save succeeds, ten loop iterations. -/
def envQuiet : Env := { space := false, pcd_ok := true, fuel := 10 }

/-- The space bar is pressed during this iteration. -/
def envSave : Env := { space := true, pcd_ok := true, fuel := 10 }

/-- The space bar is pressed and the native save fails. -/
def envSaveFails : Env := { space := true, pcd_ok := false, fuel := 10 }

/-- A geometry-only frame of three points. -/
def frameXYZ : PointCloud2 :=
  { ref := 2, width := 3, height := 1, fields := ["x", "y", "z"],
    points := [⟨1, 2, 3, 0, 0, 0, 0⟩, ⟨4, 5, 6, 0, 0, 0, 0⟩, ⟨7, 8, 9, 0, 0, 0, 0⟩] }

/-- A frame of one point that declares a field `rgb` and leaves it zero. -/
def frameBlack : PointCloud2 :=
  { ref := 1, width := 1, height := 1, fields := ["x", "y", "z", "rgb"],
    points := [⟨0, 0, 0, 0, 0, 0, 0⟩] }

/-- A frame that declares a field `rgb`; its first sample is black, its second one red. -/
def frameBlackRed : PointCloud2 :=
  { ref := 3, width := 2, height := 1, fields := ["x", "y", "z", "rgb"],
    points := [⟨0, 0, 0, 0, 0, 0, 0⟩, ⟨1, 1, 1, 255, 0, 0, 0⟩] }

/-- A coloured frame of one red point. -/
def frameRed : PointCloud2 :=
  { ref := 4, width := 1, height := 1, fields := ["x", "y", "z", "rgb"],
    points := [⟨1, 1, 1, 255, 0, 0, 0⟩] }

/-- A frame of width `0`: an empty cloud. -/
def frameEmpty : PointCloud2 :=
  { ref := 5, width := 0, height := 1, fields := ["x", "y", "z"], points := [] }

/-- A coloured frame of three points on the x axis, at 0.2 mm, 0.4 mm and 1.1 mm. -/
def frameThree : PointCloud2 :=
  { ref := 6, width := 3, height := 1, fields := ["x", "y", "z", "rgb"],
    points := [⟨2 / 10000, 0, 0, 255, 0, 0, 0⟩, ⟨4 / 10000, 0, 0, 255, 0, 0, 0⟩,
               ⟨11 / 10000, 0, 0, 255, 0, 0, 0⟩] }

/-- A frame whose samples are black but carry a fourth colour byte of 255. -/
def frameBlackAlpha : PointCloud2 :=
  { ref := 7, width := 2, height := 1, fields := ["x", "y", "z", "rgb"],
    points := [⟨0, 0, 0, 0, 0, 0, 255⟩, ⟨1, 1, 1, 0, 0, 0, 255⟩] }

/-- The state of a session started with the default parameters of `main` and text export
switched on. -/
def startState : ViewerState := initialState "pointcloud_file.pcd" true 4718592

/-! ## The hand-off of frames (C4) -/

theorem take_if_new_cloud (m : Mailbox) : m.take_if_new.2.cloud_ = m.cloud_ := by
  unfold Mailbox.take_if_new
  split
  · rfl
  · split
    · rfl
    · split <;> rfl

theorem take_if_new_old (m : Mailbox) :
    m.take_if_new.2.cloud_old_ = m.take_if_new.1.orElse (fun _ => m.cloud_old_) := by
  unfold Mailbox.take_if_new
  split
  · rfl
  · rename_i c hc
    split
    · rfl
    · split
      · rfl
      · simp [hc, Option.orElse]

theorem exec_cloud (ops : List MailboxOp) (m : Mailbox) :
    (m.exec ops).cloud_ = (lastPut ops).orElse (fun _ => m.cloud_) := by
  induction ops generalizing m with
  | nil => rfl
  | cons op ops ih =>
    cases op with
    | put c =>
      have h := ih (m.put c)
      simp only [Mailbox.exec, List.foldl_cons, Mailbox.step] at h ⊢
      rw [h, lastPut]
      cases lastPut ops <;> rfl
    | poll =>
      have h := ih m.take_if_new.2
      simp only [Mailbox.exec, List.foldl_cons, Mailbox.step] at h ⊢
      rw [h, lastPut, take_if_new_cloud]

theorem exec_old (ops : List MailboxOp) (m : Mailbox) :
    (m.exec ops).cloud_old_ = (lastSome (m.yields ops)).orElse (fun _ => m.cloud_old_) := by
  induction ops generalizing m with
  | nil => rfl
  | cons op ops ih =>
    cases op with
    | put c =>
      have h := ih (m.put c)
      simp only [Mailbox.exec, List.foldl_cons, Mailbox.step] at h ⊢
      rw [h, Mailbox.yields, lastSome, Mailbox.step, Mailbox.yield]
      cases lastSome ((m.put c).yields ops) <;> rfl
    | poll =>
      have h := ih m.take_if_new.2
      simp only [Mailbox.exec, List.foldl_cons, Mailbox.step] at h ⊢
      rw [h, Mailbox.yields, lastSome, Mailbox.step, Mailbox.yield, take_if_new_old]
      cases lastSome (m.take_if_new.2.yields ops) <;> rfl

/-- C4, as amended: run from the empty mailbox, a poll after any sequence of puts and polls
yields either nothing or the frame of the most recent put, and it yields nothing exactly when
there was no put, or that frame has width 0, or that frame is the very object (same
reference) that a poll yielded last. -/
theorem take_if_new_latest (ops : List MailboxOp) :
    pollAfter ops =
      match lastPut ops with
      | none => none
      | some f =>
        if f.width = 0 ∨ (lastYield ops).map PointCloud2.ref = some f.ref then none
        else some f := by
  have h1 := exec_cloud ops Mailbox.empty
  have h2 := exec_old ops Mailbox.empty
  have h3 : (Mailbox.empty.exec ops).cloud_old_ = lastYield ops := by
    rw [h2, lastYield]
    cases lastSome (Mailbox.empty.yields ops) <;> rfl
  unfold pollAfter Mailbox.take_if_new
  cases hp : lastPut ops with
  | none =>
    rw [hp] at h1
    have h1a : (Mailbox.empty.exec ops).cloud_ = none := by
      simpa [Option.orElse, Mailbox.empty] using h1
    simp [h1a]
  | some f =>
    rw [hp] at h1
    have h1a : (Mailbox.empty.exec ops).cloud_ = some f := by simpa [Option.orElse] using h1
    simp only [h1a, h3, ptrEq]
    by_cases hw : f.width = 0
    · simp [hw]
    · have hw2 : ¬ f.width ≤ 0 := by omega
      simp only [hw, hw2, if_false, false_or]
      by_cases hr : (lastYield ops).map PointCloud2.ref = some f.ref
      · simp [hr]
      · simp [hr]

/-- C4, as stated, fails: after `put frameRed; poll; put frameEmpty` the most recent frame is
not the one the previous poll returned, and yet the poll yields no new frame. -/
theorem take_if_new_skips_empty_frame :
    ¬ (pollAfter [MailboxOp.put frameRed, MailboxOp.poll, MailboxOp.put frameEmpty] = none ↔
        (lastYield [MailboxOp.put frameRed, MailboxOp.poll, MailboxOp.put frameEmpty]).map
            PointCloud2.ref =
          (lastPut [MailboxOp.put frameRed, MailboxOp.poll, MailboxOp.put frameEmpty]).map
            PointCloud2.ref) := by
  decide

/-! ## The name of the text file (C7) -/

/-- C7: the extension of the last component is replaced when the last dot of the path lies
there, but a path whose only dot is in a directory name loses its directory and base name:
`run.1/cloud` gives `run.txt`. -/
theorem textFilename_dot_in_directory :
    textFilename "out/cloud.pcd" = "out/cloud.txt" ∧ textFilename "cloud" = "cloud.txt" ∧
      textFilename "run.1/cloud" = "run.txt" := by
  decide

/-! ## Reads of the first colour sample (C10) and the geometry-only export (C5) -/

/-- C10: in a fresh session whose first frame declares no colour field, line 234 reads
`cloud_xyz_rgb.points[0]` from the still empty colour buffer: the iteration faults right
after the camera was initialised (from that empty buffer). -/
theorem first_xyz_frame_reads_empty_buffer :
    session startState [Event.frame frameXYZ, Event.tick envQuiet] =
      [Outcome.fault [Effect.removePointCloud, Effect.initCamera []]] := by
  decide

/-- C5: a geometry-only frame of three points that follows a frame with a declared but
zero colour field is exported as the single point of that earlier frame: line 234 probes the
stale colour buffer and line 236 overwrites `cloud_xyz` with it. -/
theorem xyz_export_uses_stale_buffer :
    (session startState
        [Event.frame frameBlack, Event.tick envQuiet, Event.frame frameXYZ,
          Event.tick envSave]).map (fun o => textFiles o.effects) =
      [[], [("pointcloud_file.txt", [Line.xyz 0 0 0])]] ∧
    linesXYZ (fromROSMsgXYZ frameXYZ) = [Line.xyz 1 2 3, Line.xyz 4 5 6, Line.xyz 7 8 9] := by
  decide

/-! ## Effects of the two branches -/

theorem shown_append (a b : List Effect) : shown (a ++ b) = shown a ++ shown b := by
  induction a with
  | nil => rfl
  | cons x a ih => cases x <;> simp [shown, ih]

theorem textFiles_append (a b : List Effect) :
    textFiles (a ++ b) = textFiles a ++ textFiles b := by
  induction a with
  | nil => rfl
  | cons x a ih => cases x <;> simp [textFiles, ih]

theorem cameraInits_append (a b : List Effect) :
    cameraInits (a ++ b) = cameraInits a + cameraInits b := by
  induction a with
  | nil => simp [cameraInits]
  | cons x a ih =>
    cases x <;> simp [cameraInits, ih]
    omega

theorem shown_logSave (ok : Bool) (f : String) (fx : List Effect) :
    shown (logSave ok f :: fx) = shown fx := by
  cases ok <;> simp [logSave, shown]

theorem textFiles_logSave (ok : Bool) (f : String) (fx : List Effect) :
    textFiles (logSave ok f :: fx) = textFiles fx := by
  cases ok <;> simp [logSave, textFiles]

theorem cameraInits_logSave (ok : Bool) (f : String) (fx : List Effect) :
    cameraInits (logSave ok f :: fx) = cameraInits fx := by
  cases ok <;> simp [logSave, cameraInits]

theorem initCameraOnce_cloud (s : ViewerState) :
    (initCameraOnce s).1.cloud_xyz_rgb = s.cloud_xyz_rgb ∧
      (initCameraOnce s).1.cloud_xyz = s.cloud_xyz ∧
      (initCameraOnce s).1.save_cloud_ = s.save_cloud_ ∧
      (initCameraOnce s).1.save_cloud_webgl_ = s.save_cloud_webgl_ ∧
      (initCameraOnce s).1.pcd_filename_ = s.pcd_filename_ ∧
      (initCameraOnce s).1.max_ascii_file_size_ = s.max_ascii_file_size_ ∧
      (initCameraOnce s).1.viewer_initialized_ = true := by
  unfold initCameraOnce
  cases h : s.viewer_initialized_ <;> simp [h]

theorem initCameraOnce_effects (s : ViewerState) :
    shown (initCameraOnce s).2 = [] ∧ textFiles (initCameraOnce s).2 = [] ∧
      cameraInits (initCameraOnce s).2 = (if s.viewer_initialized_ then 0 else 1) := by
  unfold initCameraOnce
  cases h : s.viewer_initialized_ <;> simp [h, shown, textFiles, cameraInits]

theorem colouredBranch_shown (s : ViewerState) (e : Env) (fx : List Effect) :
    shown (colouredBranch s e fx).effects = shown fx ++ [Sum.inl s.cloud_xyz_rgb] := by
  obtain ⟨h1, -, -, -, -, -, -⟩ := initCameraOnce_cloud s
  obtain ⟨h2, -, -⟩ := initCameraOnce_effects s
  unfold colouredBranch
  simp only []
  split
  · split
    · split
      · simp [Outcome.effects, shown_append, shown, shown_logSave, h1, h2]
      · simp [Outcome.effects, shown_append, shown, shown_logSave, h1, h2]
    · simp [Outcome.effects, shown_append, shown, shown_logSave, h1, h2]
  · simp [Outcome.effects, shown_append, shown, shown_logSave, h1, h2]

theorem geometryRest_shown (s : ViewerState) (e : Env) (fx : List Effect) :
    shown (geometryRest s e fx).effects = shown fx ++ [Sum.inr s.cloud_xyz] := by
  unfold geometryRest
  simp only []
  split
  · split
    · simp [Outcome.effects, shown_append, shown, shown_logSave]
    · simp [Outcome.effects, shown_append, shown, shown_logSave]
  · simp [Outcome.effects, shown_append, shown, shown_logSave]

theorem colouredBranch_textFiles (s : ViewerState) (e : Env) (fx : List Effect) :
    ∀ f ∈ textFiles (colouredBranch s e fx).effects,
      f ∈ textFiles fx ∨
        ∃ st, downsampleLoop (desired_points s.max_ascii_file_size_) e.fuel
            (s.cloud_xyz_rgb, voxel_size0) = some st ∧
          f = (textFilename s.pcd_filename_,
            st.1.map (fun q => Line.xyzrgb q.x q.y q.z q.r q.g q.b)) := by
  obtain ⟨h0, -, -, -, h1, h3, -⟩ := initCameraOnce_cloud s
  obtain ⟨-, h2, -⟩ := initCameraOnce_effects s
  intro f hf
  unfold colouredBranch at hf
  simp only [] at hf
  split at hf
  · split at hf
    · split at hf
      · simp [Outcome.effects, textFiles_append, textFiles, textFiles_logSave, h2] at hf
        exact Or.inl hf
      · rename_i st hst
        simp [Outcome.effects, textFiles_append, textFiles, textFiles_logSave, h2, h1,
          linesRGB] at hf
        rcases hf with hf | hf
        · exact Or.inl hf
        · exact Or.inr ⟨st, by simpa [h0, h3] using hst, hf⟩
    · simp [Outcome.effects, textFiles_append, textFiles, textFiles_logSave, h2] at hf
      exact Or.inl hf
  · simp [Outcome.effects, textFiles_append, textFiles, textFiles_logSave, h2] at hf
    exact Or.inl hf

theorem geometryRest_textFiles (s : ViewerState) (e : Env) (fx : List Effect) :
    ∀ f ∈ textFiles (geometryRest s e fx).effects,
      f ∈ textFiles fx ∨
        f = (textFilename s.pcd_filename_, s.cloud_xyz.map (fun q => Line.xyz q.x q.y q.z)) := by
  intro f hf
  unfold geometryRest at hf
  simp only [] at hf
  split at hf
  · split at hf
    · simp [Outcome.effects, textFiles_append, textFiles, textFiles_logSave, linesXYZ] at hf
      rcases hf with hf | hf
      · exact Or.inl hf
      · exact Or.inr hf
    · simp [Outcome.effects, textFiles_append, textFiles, textFiles_logSave] at hf
      exact Or.inl hf
  · simp [Outcome.effects, textFiles_append, textFiles, textFiles_logSave] at hf
    exact Or.inl hf

theorem nativeFiles_append (a b : List Effect) :
    nativeFiles (a ++ b) = nativeFiles a ++ nativeFiles b := by
  induction a with
  | nil => rfl
  | cons x a ih => cases x <;> simp [nativeFiles, ih]

theorem nativeFiles_logSave (ok : Bool) (f : String) (fx : List Effect) :
    nativeFiles (logSave ok f :: fx) = nativeFiles fx := by
  cases ok <;> simp [logSave, nativeFiles]

theorem colouredBranch_nativeFiles (s : ViewerState) (e : Env) (fx : List Effect) :
    ∀ g ∈ nativeFiles (colouredBranch s e fx).effects,
      g ∈ nativeFiles fx ∨ g = (s.pcd_filename_, Sum.inl s.cloud_xyz_rgb) := by
  obtain ⟨h0, -, -, -, h1, -, -⟩ := initCameraOnce_cloud s
  have h2 : nativeFiles (initCameraOnce s).2 = [] := by
    unfold initCameraOnce
    split <;> simp [nativeFiles]
  intro g hg
  unfold colouredBranch at hg
  simp only [] at hg
  split at hg
  · split at hg
    · split at hg
      · simp [Outcome.effects, nativeFiles_append, nativeFiles, nativeFiles_logSave, h2, h0,
          h1] at hg
        exact hg
      · simp [Outcome.effects, nativeFiles_append, nativeFiles, nativeFiles_logSave, h2, h0,
          h1] at hg
        exact hg
    · simp [Outcome.effects, nativeFiles_append, nativeFiles, nativeFiles_logSave, h2, h0,
        h1] at hg
      exact hg
  · simp [Outcome.effects, nativeFiles_append, nativeFiles, nativeFiles_logSave, h2] at hg
    exact Or.inl hg

theorem geometryRest_nativeFiles (s : ViewerState) (e : Env) (fx : List Effect) :
    ∀ g ∈ nativeFiles (geometryRest s e fx).effects,
      g ∈ nativeFiles fx ∨ g = (s.pcd_filename_, Sum.inr s.cloud_xyz) := by
  intro g hg
  unfold geometryRest at hg
  simp only [] at hg
  split at hg
  · split at hg
    · simp [Outcome.effects, nativeFiles_append, nativeFiles, nativeFiles_logSave] at hg
      exact hg
    · simp [Outcome.effects, nativeFiles_append, nativeFiles, nativeFiles_logSave] at hg
      exact hg
  · simp [Outcome.effects, nativeFiles_append, nativeFiles, nativeFiles_logSave] at hg
    exact Or.inl hg

/-! ## Which branch an iteration takes -/

theorem getFieldIndexRGB_rgb : fieldIndex "rgb" fieldsPointRGB ≠ -1 := by decide

theorem spinOnce_mailbox (s : ViewerState) (e : Env) :
    (spinOnce s e).cloud_ = s.cloud_ ∧ (spinOnce s e).cloud_old_ = s.cloud_old_ := by
  unfold spinOnce keyboardEventOccurred
  split <;> simp

theorem spinOnce_fields (s : ViewerState) (e : Env) :
    (spinOnce s e).viewer_initialized_ = s.viewer_initialized_ ∧
      (spinOnce s e).save_cloud_ = (s.save_cloud_ || e.space) ∧
      (spinOnce s e).save_cloud_webgl_ = s.save_cloud_webgl_ ∧
      (spinOnce s e).pcd_filename_ = s.pcd_filename_ ∧
      (spinOnce s e).max_ascii_file_size_ = s.max_ascii_file_size_ ∧
      (spinOnce s e).cloud_xyz_rgb = s.cloud_xyz_rgb ∧
      (spinOnce s e).cloud_xyz = s.cloud_xyz := by
  unfold spinOnce keyboardEventOccurred
  cases h : e.space <;> simp [h]

/-- An iteration that finds a new frame declaring a field `rgb` with a non-zero first colour
runs the coloured branch on that frame. -/
theorem iteration_coloured (s : ViewerState) (e : Env) (c : PointCloud2) (p : PointRGB)
    (ps : List PointRGB) (hc : s.cloud_ = some c) (hw : 0 < c.width)
    (hn : ptrEq s.cloud_old_ s.cloud_ = false) (hf : getFieldIndex c "rgb" ≠ -1)
    (hp : c.points = p :: ps) (h0 : ¬ p.rgbIsZero) :
    updateVisualization s e =
      colouredBranch
        { spinOnce s e with rgb := true, cloud_xyz_rgb := c.points, cloud_old_ := some c,
                            fields := fieldsPointRGB } e [Effect.removePointCloud] := by
  obtain ⟨h1, h2⟩ := spinOnce_mailbox s e
  have hw2 : ¬ c.width ≤ 0 := by omega
  have hg := getFieldIndexRGB_rgb
  have hn2 : ptrEq s.cloud_old_ (some c) = false := by rw [← hc]; exact hn
  unfold updateVisualization
  simp only [hc, hw2, if_false, h1, h2, hn2]
  simp [convert, hf, rgbUsable, hg, fromROSMsgRGB, hp, h0, h1, hc, getFieldIndexRGB]

/-- An iteration that finds a new frame declaring a field `rgb` with a zero first colour
converts the frame to geometry only and shows and exports that. -/
theorem iteration_black (s : ViewerState) (e : Env) (c : PointCloud2) (p : PointRGB)
    (ps : List PointRGB) (hc : s.cloud_ = some c) (hw : 0 < c.width)
    (hn : ptrEq s.cloud_old_ s.cloud_ = false) (hf : getFieldIndex c "rgb" ≠ -1)
    (hp : c.points = p :: ps) (h0 : p.rgbIsZero) :
    updateVisualization s e =
      geometryRest
        { (initCameraOnce (spinOnce s e)).1 with
            rgb := true, cloud_xyz_rgb := c.points, cloud_old_ := some c,
            fields := fieldsPointRGB, cloud_xyz := copyPointCloud c.points } e
        ([Effect.removePointCloud] ++
          (if s.viewer_initialized_ then [] else [Effect.initCamera c.points])) := by
  obtain ⟨h1, h2⟩ := spinOnce_mailbox s e
  have hw2 : ¬ c.width ≤ 0 := by omega
  have hg := getFieldIndexRGB_rgb
  have hv : (spinOnce s e).viewer_initialized_ = s.viewer_initialized_ := by
    unfold spinOnce keyboardEventOccurred
    split <;> simp
  have hn2 : ptrEq s.cloud_old_ (some c) = false := by rw [← hc]; exact hn
  unfold updateVisualization
  simp only [hc, hw2, if_false, h1, h2, hn2]
  cases hvi : s.viewer_initialized_ <;>
    simp [convert, hf, rgbUsable, hg, fromROSMsgRGB, hp, h0, h1, hc, getFieldIndexRGB,
      geometryBranch, initCameraOnce, hv, hvi]

/-- An iteration that finds a new frame without a field `rgb` runs the geometry branch with
the colour buffer left as it was. -/
theorem iteration_xyz (s : ViewerState) (e : Env) (c : PointCloud2) (hc : s.cloud_ = some c)
    (hw : 0 < c.width) (hn : ptrEq s.cloud_old_ s.cloud_ = false)
    (hf : getFieldIndex c "rgb" = -1) :
    updateVisualization s e =
      geometryBranch
        { spinOnce s e with rgb := false, cloud_xyz := fromROSMsgXYZ c, fields := fieldsPoint,
                            cloud_old_ := some c } e [Effect.removePointCloud] := by
  obtain ⟨h1, h2⟩ := spinOnce_mailbox s e
  have hw2 : ¬ c.width ≤ 0 := by omega
  have hn2 : ptrEq s.cloud_old_ (some c) = false := by rw [← hc]; exact hn
  unfold updateVisualization
  simp only [hc, hw2, if_false, h1, h2, hn2]
  simp [convert, hf, rgbUsable, h1, hc]

/-! ## Classification of a frame that declares a colour field (C3) -/

/-- The test `rgb == 0` in terms of the colour bytes: the word is that of `+0.0` or `-0.0`
exactly when red, green and blue are zero and the fourth byte is `0` or `0x80`. -/
theorem rgbIsZero_iff (p : PointRGB) (hr : p.r < 256) (hg : p.g < 256) (hb : p.b < 256)
    (ha : p.a < 256) :
    p.rgbIsZero ↔ p.r = 0 ∧ p.g = 0 ∧ p.b = 0 ∧ (p.a = 0 ∨ p.a = 128) := by
  unfold PointRGB.rgbIsZero PointRGB.rgba
  omega

/-- C3, as amended: a new non-empty frame that declares a field `rgb` is shown, saved and
exported as a coloured cloud exactly when the `float` member `rgb` of its FIRST sample
compares unequal to zero; otherwise the frame is converted to geometry only and shown, saved
and exported as such, whatever the other samples hold.  That `float` is zero exactly when
the sample has red, green and blue zero and a fourth colour byte of `0` or `0x80`; in
particular a frame whose first sample has all four colour bytes zero is converted. -/
theorem colour_decided_by_first_sample (s : ViewerState) (e : Env) (c : PointCloud2)
    (p : PointRGB) (ps : List PointRGB) (hc : s.cloud_ = some c) (hw : 0 < c.width)
    (hn : ptrEq s.cloud_old_ s.cloud_ = false) (hf : getFieldIndex c "rgb" ≠ -1)
    (hp : c.points = p :: ps) :
    (¬ p.rgbIsZero →
      shown (updateVisualization s e).effects = [Sum.inl c.points] ∧
        (∀ g ∈ nativeFiles (updateVisualization s e).effects,
          g = (s.pcd_filename_, Sum.inl c.points)) ∧
        ∀ f ∈ textFiles (updateVisualization s e).effects,
          ∃ st, downsampleLoop (desired_points s.max_ascii_file_size_) e.fuel
              (c.points, voxel_size0) = some st ∧
            f = (textFilename s.pcd_filename_,
              st.1.map (fun q => Line.xyzrgb q.x q.y q.z q.r q.g q.b))) ∧
    (p.rgbIsZero →
      shown (updateVisualization s e).effects = [Sum.inr (c.points.map PointRGB.toPoint)] ∧
        (∀ g ∈ nativeFiles (updateVisualization s e).effects,
          g = (s.pcd_filename_, Sum.inr (c.points.map PointRGB.toPoint))) ∧
        ∀ f ∈ textFiles (updateVisualization s e).effects,
          f = (textFilename s.pcd_filename_,
            c.points.map (fun q => Line.xyz q.x q.y q.z))) ∧
    (p.r < 256 → p.g < 256 → p.b < 256 → p.a < 256 →
      (p.rgbIsZero ↔ p.r = 0 ∧ p.g = 0 ∧ p.b = 0 ∧ (p.a = 0 ∨ p.a = 128))) ∧
    (p.r = 0 → p.g = 0 → p.b = 0 → p.a = 0 → p.rgbIsZero) := by
  obtain ⟨-, -, -, g4, g5, -, -⟩ := spinOnce_fields s e
  refine ⟨?_, ?_, rgbIsZero_iff p, ?_⟩
  · intro h0
    rw [iteration_coloured s e c p ps hc hw hn hf hp h0]
    refine ⟨by simp [colouredBranch_shown, shown], ?_, ?_⟩
    · intro g hg
      rcases colouredBranch_nativeFiles _ _ _ g hg with h | h
      · simp [nativeFiles] at h
      · simpa [g4] using h
    · intro f hf2
      rcases colouredBranch_textFiles _ _ _ f hf2 with h | ⟨st, hst, h⟩
      · simp [textFiles] at h
      · exact ⟨st, by simpa [g5] using hst, by simpa [g4] using h⟩
  · intro h0
    obtain ⟨-, -, -, -, i5, -, -⟩ := initCameraOnce_cloud (spinOnce s e)
    rw [iteration_black s e c p ps hc hw hn hf hp h0]
    refine ⟨?_, ?_, ?_⟩
    · rw [geometryRest_shown, shown_append]
      cases s.viewer_initialized_ <;> simp [shown, copyPointCloud]
    · intro g hg
      rcases geometryRest_nativeFiles _ _ _ g hg with h | h
      · rw [nativeFiles_append] at h
        cases hv : s.viewer_initialized_ <;> simp [hv, nativeFiles] at h
      · simpa [i5, g4, copyPointCloud] using h
    · intro f hf2
      rcases geometryRest_textFiles _ _ _ f hf2 with h | h
      · rw [textFiles_append] at h
        cases hv : s.viewer_initialized_ <;> simp [hv, textFiles] at h
      · simpa [i5, g4, copyPointCloud, PointRGB.toPoint] using h
  · intro hr hg hb ha
    left
    simp [PointRGB.rgba, hr, hg, hb, ha]

/-- Witness of `colour_decided_by_first_sample`: `frameBlackRed`, saved with text export on;
it is shown and written, natively and as text, without its colours. -/
theorem colour_decided_by_first_sample_witness :
    shown (updateVisualization (cloud_cb startState frameBlackRed) envSave).effects =
        [Sum.inr [⟨0, 0, 0⟩, ⟨1, 1, 1⟩]] ∧
      (∀ g ∈ nativeFiles (updateVisualization (cloud_cb startState frameBlackRed)
          envSave).effects, g = ("pointcloud_file.pcd", Sum.inr [⟨0, 0, 0⟩, ⟨1, 1, 1⟩])) ∧
      ∀ f ∈ textFiles (updateVisualization (cloud_cb startState frameBlackRed)
          envSave).effects,
        f = (textFilename "pointcloud_file.pcd", [Line.xyz 0 0 0, Line.xyz 1 1 1]) :=
  (colour_decided_by_first_sample (cloud_cb startState frameBlackRed) envSave frameBlackRed
    ⟨0, 0, 0, 0, 0, 0, 0⟩ [⟨1, 1, 1, 255, 0, 0, 0⟩] rfl (by decide) (by decide) (by decide)
    rfl).2.1 (by decide)

/-- C3, as stated, fails: the second sample of `frameBlackRed` is red, and yet the frame is
shown as a geometry-only cloud. -/
theorem black_first_sample_hides_colour :
    (∃ p ∈ frameBlackRed.points, p.r = 255 ∧ ¬ p.rgbIsZero) ∧
      getFieldIndex frameBlackRed "rgb" ≠ -1 ∧
      shown (updateVisualization (cloud_cb startState frameBlackRed) envQuiet).effects =
        [Sum.inr [⟨0, 0, 0⟩, ⟨1, 1, 1⟩]] := by
  decide

/-- A frame whose every sample has red, green and blue zero is nevertheless shown as a
coloured cloud when the fourth colour byte of its first sample is 255: the `float` laid over
`0xFF000000` is not zero. -/
theorem black_with_fourth_byte_is_coloured :
    (∀ p ∈ frameBlackAlpha.points, p.r = 0 ∧ p.g = 0 ∧ p.b = 0) ∧
      shown (updateVisualization (cloud_cb startState frameBlackAlpha) envQuiet).effects =
        [Sum.inl frameBlackAlpha.points] := by
  decide

/-! ## The state at the end of an iteration -/

theorem colouredBranch_done (s s1 : ViewerState) (e : Env) (fx fx1 : List Effect)
    (h : colouredBranch s e fx = Outcome.done s1 fx1) :
    s1.cloud_ = s.cloud_ ∧ s1.cloud_old_ = s.cloud_old_ ∧ s1.viewer_initialized_ = true ∧
      (s.save_cloud_ = true → s.cloud_xyz_rgb ≠ [] → s1.save_cloud_ = false) := by
  unfold colouredBranch at h
  simp only [] at h
  have hi : (initCameraOnce s).1.cloud_ = s.cloud_ ∧
      (initCameraOnce s).1.cloud_old_ = s.cloud_old_ := by
    unfold initCameraOnce
    split <;> simp
  obtain ⟨h1, -, h3, -, -, -, h7⟩ := initCameraOnce_cloud s
  split at h
  · split at h
    · split at h
      · exact absurd h (by simp)
      · injection h with h _
        subst h
        simp [hi, h7]
    · injection h with h _
      subst h
      simp [hi, h7]
  · rename_i hcond
    injection h with h _
    subst h
    refine ⟨by simp [hi], by simp [hi], by simp [h7], ?_⟩
    intro hs hne
    exfalso
    apply hcond
    rw [h3, h1, hs]
    simpa [List.length_pos] using hne

theorem geometryRest_done (s s1 : ViewerState) (e : Env) (fx fx1 : List Effect)
    (h : geometryRest s e fx = Outcome.done s1 fx1) :
    s1.cloud_ = s.cloud_ ∧ s1.cloud_old_ = s.cloud_old_ ∧
      s1.viewer_initialized_ = s.viewer_initialized_ ∧
      (s.save_cloud_ = true → s.cloud_xyz ≠ [] → s1.save_cloud_ = false) := by
  unfold geometryRest at h
  simp only [] at h
  split at h
  · split at h
    · injection h with h _
      subst h
      simp
    · injection h with h _
      subst h
      simp
  · rename_i hcond
    injection h with h _
    subst h
    refine ⟨rfl, rfl, rfl, ?_⟩
    intro hs hne
    exfalso
    apply hcond
    rw [hs]
    simpa [List.length_pos] using hne

theorem geometryRest_total (s : ViewerState) (e : Env) (fx : List Effect) :
    ∃ s1 fx1, geometryRest s e fx = Outcome.done s1 fx1 := by
  unfold geometryRest
  simp only []
  split
  · split
    · exact ⟨_, _, rfl⟩
    · exact ⟨_, _, rfl⟩
  · exact ⟨_, _, rfl⟩

theorem geometryBranch_done (s s1 : ViewerState) (e : Env) (fx fx1 : List Effect)
    (h : geometryBranch s e fx = Outcome.done s1 fx1) :
    s1.cloud_ = s.cloud_ ∧ s1.cloud_old_ = s.cloud_old_ ∧ s1.viewer_initialized_ = true ∧
      (s.save_cloud_ = true → s.cloud_xyz ≠ [] → s1.save_cloud_ = false) := by
  have hi : (initCameraOnce s).1.cloud_ = s.cloud_ ∧
      (initCameraOnce s).1.cloud_old_ = s.cloud_old_ := by
    unfold initCameraOnce
    split <;> simp
  obtain ⟨h1, h2, h3, -, -, -, h7⟩ := initCameraOnce_cloud s
  have hg := getFieldIndexRGB_rgb
  unfold geometryBranch at h
  simp only [getFieldIndexRGB, ne_eq, hg, not_false_eq_true, if_true] at h
  split at h
  · exact absurd h (by simp)
  · rename_i p hp
    split at h
    · obtain ⟨a, b, c, d⟩ := geometryRest_done _ _ _ _ _ h
      refine ⟨by simp [a, hi], by simp [b, hi], by simp [c, h7], ?_⟩
      intro hs _
      apply d
      · simp [h3, hs]
      · simp only [copyPointCloud, ne_eq, List.map_eq_nil_iff]
        intro hnil
        simp [hnil] at hp
    · obtain ⟨a, b, c, d⟩ := geometryRest_done _ _ _ _ _ h
      refine ⟨by simp [a, hi], by simp [b, hi], by simp [c, h7], ?_⟩
      intro hs hne
      apply d
      · simp [h3, hs]
      · simpa [h2] using hne

theorem colouredBranch_inits (s : ViewerState) (e : Env) (fx : List Effect) :
    cameraInits (colouredBranch s e fx).effects =
        cameraInits fx + (if s.viewer_initialized_ then 0 else 1) ∧
      (colouredBranch s e fx).processed = true := by
  obtain ⟨-, -, h2⟩ := initCameraOnce_effects s
  unfold colouredBranch
  simp only []
  split
  · split
    · split
      · simp [Outcome.effects, Outcome.processed, cameraInits_append, cameraInits,
          cameraInits_logSave, h2]
      · simp [Outcome.effects, Outcome.processed, cameraInits_append, cameraInits,
          cameraInits_logSave, h2]
    · simp [Outcome.effects, Outcome.processed, cameraInits_append, cameraInits,
        cameraInits_logSave, h2]
  · simp [Outcome.effects, Outcome.processed, cameraInits_append, cameraInits,
      cameraInits_logSave, h2]

theorem geometryRest_inits (s : ViewerState) (e : Env) (fx : List Effect) :
    cameraInits (geometryRest s e fx).effects = cameraInits fx ∧
      (geometryRest s e fx).processed = true := by
  unfold geometryRest
  simp only []
  split
  · split
    · simp [Outcome.effects, Outcome.processed, cameraInits_append, cameraInits,
        cameraInits_logSave]
    · simp [Outcome.effects, Outcome.processed, cameraInits_append, cameraInits,
        cameraInits_logSave]
  · simp [Outcome.effects, Outcome.processed, cameraInits_append, cameraInits,
      cameraInits_logSave]

theorem geometryBranch_inits (s : ViewerState) (e : Env) (fx : List Effect) :
    cameraInits (geometryBranch s e fx).effects =
        cameraInits fx + (if s.viewer_initialized_ then 0 else 1) ∧
      (geometryBranch s e fx).processed = true := by
  obtain ⟨-, -, h2⟩ := initCameraOnce_effects s
  have hg := getFieldIndexRGB_rgb
  unfold geometryBranch
  simp only [getFieldIndexRGB, ne_eq, hg, not_false_eq_true, if_true]
  split
  · simp [Outcome.effects, Outcome.processed, cameraInits_append, h2]
  · split
    · simp [geometryRest_inits, cameraInits_append, h2]
    · simp [geometryRest_inits, cameraInits_append, h2]

/-- The head of an iteration agrees with `Mailbox.take_if_new`: either the iteration ends
with `continue` and the mailbox yields nothing, or the mailbox yields the current frame. -/
theorem iteration_guard (s : ViewerState) (e : Env) :
    (s.mailbox.take_if_new = (none, s.mailbox) ∧
      ∃ s1, updateVisualization s e = Outcome.idle s1 ∧
        s1.cloud_ = s.cloud_ ∧ s1.cloud_old_ = s.cloud_old_ ∧
        s1.viewer_initialized_ = s.viewer_initialized_) ∨
    (∃ c, s.cloud_ = some c ∧ 0 < c.width ∧ ptrEq s.cloud_old_ s.cloud_ = false ∧
        s.mailbox.take_if_new = (some c, { cloud_ := some c, cloud_old_ := some c })) := by
  obtain ⟨h1, h2⟩ := spinOnce_mailbox s e
  obtain ⟨h3, -⟩ := spinOnce_fields s e
  cases hc : s.cloud_ with
  | none =>
    left
    refine ⟨by simp [Mailbox.take_if_new, ViewerState.mailbox, hc], s, ?_⟩
    simp [updateVisualization, hc]
  | some c =>
    by_cases hw : c.width ≤ 0
    · left
      refine ⟨by simp [Mailbox.take_if_new, ViewerState.mailbox, hc, hw], s, ?_⟩
      simp [updateVisualization, hc, hw]
    · cases hn : ptrEq s.cloud_old_ s.cloud_ with
      | true =>
        left
        rw [hc] at hn
        refine ⟨by simp [Mailbox.take_if_new, ViewerState.mailbox, hc, hw, hn],
          spinOnce s e, ?_⟩
        simp [updateVisualization, hc, hw, h1, h2, h3, hn]
      | false =>
        right
        refine ⟨c, rfl, by omega, by rw [← hc]; exact hn, ?_⟩
        rw [hc] at hn
        simp [Mailbox.take_if_new, ViewerState.mailbox, hc, hw, hn]

/-- A new frame that declares a field `rgb` and carries no sample makes line 157 read
`points[0]` from an empty buffer. -/
theorem iteration_rgb_empty (s : ViewerState) (e : Env) (c : PointCloud2) (hc : s.cloud_ = some c)
    (hw : 0 < c.width) (hn : ptrEq s.cloud_old_ s.cloud_ = false)
    (hf : getFieldIndex c "rgb" ≠ -1) (hp : c.points = []) :
    updateVisualization s e = Outcome.fault [Effect.removePointCloud] := by
  obtain ⟨h1, h2⟩ := spinOnce_mailbox s e
  have hw2 : ¬ c.width ≤ 0 := by omega
  have hg := getFieldIndexRGB_rgb
  have hn2 : ptrEq s.cloud_old_ (some c) = false := by rw [← hc]; exact hn
  unfold updateVisualization
  simp only [hc, hw2, if_false, h1, h2, hn2]
  simp [convert, hf, rgbUsable, hg, fromROSMsgRGB, hp, h1, hc, getFieldIndexRGB]

/-- What an iteration that ran to its end on a frame leaves behind. -/
theorem iteration_done (s s1 : ViewerState) (e : Env) (fx : List Effect)
    (h : updateVisualization s e = Outcome.done s1 fx) :
    ∃ c, s.cloud_ = some c ∧ 0 < c.width ∧ ptrEq s.cloud_old_ s.cloud_ = false ∧
      s1.cloud_ = some c ∧ s1.cloud_old_ = some c ∧ s1.viewer_initialized_ = true ∧
      ((s.save_cloud_ = true ∨ e.space = true) → c.points ≠ [] → s1.save_cloud_ = false) := by
  rcases iteration_guard s e with ⟨-, s2, h2, -⟩ | ⟨c, hc, hw, hn, -⟩
  · rw [h2] at h
    exact absurd h (by simp)
  · obtain ⟨g1, g2⟩ := spinOnce_mailbox s e
    obtain ⟨-, g3, -⟩ := spinOnce_fields s e
    refine ⟨c, hc, hw, hn, ?_⟩
    by_cases hf : getFieldIndex c "rgb" = -1
    · rw [iteration_xyz s e c hc hw hn hf] at h
      obtain ⟨a, b, c1, d⟩ := geometryBranch_done _ _ _ _ _ h
      refine ⟨by simp [a, g1, hc], by simp [b], c1, ?_⟩
      intro hs hne
      apply d
      · rcases hs with hs | hs <;> simp [g3, hs]
      · simpa [fromROSMsgXYZ] using hne
    · cases hp : c.points with
      | nil =>
        rw [iteration_rgb_empty s e c hc hw hn hf hp] at h
        exact absurd h (by simp)
      | cons p ps =>
        by_cases h0 : p.rgbIsZero
        · rw [iteration_black s e c p ps hc hw hn hf hp h0] at h
          obtain ⟨a, b, c1, d⟩ := geometryRest_done _ _ _ _ _ h
          obtain ⟨-, -, i3, -, -, -, i7⟩ := initCameraOnce_cloud (spinOnce s e)
          have hi : (initCameraOnce (spinOnce s e)).1.cloud_ = (spinOnce s e).cloud_ := by
            unfold initCameraOnce
            split <;> simp
          refine ⟨by simp [a, hi, g1, hc], by simp [b], by simp [c1, i7], ?_⟩
          intro hs _
          apply d
          · rcases hs with hs | hs <;> simp [i3, g3, hs]
          · simp [copyPointCloud, hp]
        · rw [iteration_coloured s e c p ps hc hw hn hf hp h0] at h
          obtain ⟨a, b, c1, d⟩ := colouredBranch_done _ _ _ _ _ h
          refine ⟨by simp [a, g1, hc], by simp [b], c1, ?_⟩
          intro hs _
          apply d
          · rcases hs with hs | hs <;> simp [g3, hs]
          · simp [hp]

/-- An iteration on a new frame with at least one sample goes past both `continue`s and
initialises the camera exactly when it was not initialised before. -/
theorem iteration_inits (s : ViewerState) (e : Env) (c : PointCloud2) (hc : s.cloud_ = some c)
    (hw : 0 < c.width) (hn : ptrEq s.cloud_old_ s.cloud_ = false) (hne : c.points ≠ []) :
    cameraInits (updateVisualization s e).effects = (if s.viewer_initialized_ then 0 else 1) ∧
      (updateVisualization s e).processed = true := by
  obtain ⟨g0, -⟩ := spinOnce_fields s e
  by_cases hf : getFieldIndex c "rgb" = -1
  · rw [iteration_xyz s e c hc hw hn hf]
    simpa [cameraInits, g0] using geometryBranch_inits _ e [Effect.removePointCloud]
  · cases hp : c.points with
    | nil => exact absurd hp hne
    | cons p ps =>
      by_cases h0 : p.rgbIsZero
      · rw [iteration_black s e c p ps hc hw hn hf hp h0]
        refine ⟨?_, (geometryRest_inits _ _ _).2⟩
        rw [(geometryRest_inits _ _ _).1]
        cases s.viewer_initialized_ <;> simp [cameraInits]
      · rw [iteration_coloured s e c p ps hc hw hn hf hp h0]
        refine ⟨?_, (colouredBranch_inits _ _ _).2⟩
        rw [(colouredBranch_inits _ _ _).1]
        simp [cameraInits, g0]

/-! ## The save flag (C6) -/

theorem colouredBranch_total (s : ViewerState) (e : Env) (fx : List Effect)
    (h : s.save_cloud_webgl_ = false) :
    ∃ s1 fx1, colouredBranch s e fx = Outcome.done s1 fx1 := by
  obtain ⟨-, -, -, h4, -, -, -⟩ := initCameraOnce_cloud s
  unfold colouredBranch
  simp only [h4, h]
  split
  · exact ⟨_, _, rfl⟩
  · exact ⟨_, _, rfl⟩

theorem geometryBranch_total (s : ViewerState) (e : Env) (fx : List Effect)
    (h : s.cloud_xyz_rgb ≠ []) : ∃ s1 fx1, geometryBranch s e fx = Outcome.done s1 fx1 := by
  obtain ⟨h1, -⟩ := initCameraOnce_cloud s
  have hg := getFieldIndexRGB_rgb
  unfold geometryBranch
  simp only [getFieldIndexRGB, ne_eq, hg, not_false_eq_true, if_true]
  split
  · rename_i hh
    simp [h1] at hh
    exact absurd hh h
  · split
    · exact geometryRest_total _ _ _
    · exact geometryRest_total _ _ _

/-- Where the save flag is cleared: an iteration that processes a new frame with at least one
point while a save is requested, and that comes to its end, ends with `save_cloud_` false,
whatever `savePCDFile` returned and whichever branch was taken.  It does come to its end
when text export is off and line 234 reads inside the colour buffer (the frame declares a
field `rgb`, or the buffer is not empty). -/
theorem save_cleared_when_iteration_ends (s : ViewerState) (e : Env) (c : PointCloud2)
    (hc : s.cloud_ = some c) (hne : c.points ≠ [])
    (hs : s.save_cloud_ = true ∨ e.space = true) :
    (∀ s1 fx, updateVisualization s e = Outcome.done s1 fx → s1.save_cloud_ = false) ∧
      (0 < c.width → ptrEq s.cloud_old_ s.cloud_ = false →
        (getFieldIndex c "rgb" ≠ -1 ∨ s.cloud_xyz_rgb ≠ []) → s.save_cloud_webgl_ = false →
        ∃ s1 fx, updateVisualization s e = Outcome.done s1 fx) := by
  constructor
  · intro s1 fx h
    obtain ⟨c2, hc2, -, -, -, -, -, h7⟩ := iteration_done s s1 e fx h
    rw [hc] at hc2
    injection hc2 with hc2
    subst hc2
    exact h7 hs hne
  · intro hw hn hb hg
    obtain ⟨-, -, g3, -, -, g6, -⟩ := spinOnce_fields s e
    by_cases hf : getFieldIndex c "rgb" = -1
    · rw [iteration_xyz s e c hc hw hn hf]
      apply geometryBranch_total
      rcases hb with hb | hb
      · exact absurd hf hb
      · simpa [g6] using hb
    · obtain ⟨p, ps, hp⟩ := List.exists_cons_of_ne_nil hne
      by_cases h0 : p.rgbIsZero
      · rw [iteration_black s e c p ps hc hw hn hf hp h0]
        exact geometryRest_total _ _ _
      · rw [iteration_coloured s e c p ps hc hw hn hf hp h0]
        apply colouredBranch_total
        simp [g3, hg]

/-- C6: in a fresh session whose first frame is geometry-only, with the space bar pressed
during the iteration, `save_cloud_` is set by the key event and the iteration faults at the
read of line 234, before `savePCDFile` (line 253) and before `save_cloud_ = false` (line
257): no file is saved and the flag is never cleared.  The same frame and key after a
coloured frame was processed end with the flag cleared. -/
theorem first_xyz_frame_leaves_save_requested :
    updateVisualization (cloud_cb startState frameXYZ) envSave =
        Outcome.fault [Effect.removePointCloud, Effect.initCamera []] ∧
      (spinOnce (cloud_cb startState frameXYZ) envSave).save_cloud_ = true ∧
      (session startState
          [Event.frame frameXYZ, Event.tick envSave]).map
            (fun o => o.state?.map ViewerState.save_cloud_) = [none] ∧
      (session startState
          [Event.frame frameRed, Event.tick envQuiet, Event.frame frameXYZ,
            Event.tick envSave]).map
            (fun o => o.state?.map ViewerState.save_cloud_) = [some false, some false] := by
  decide

/-! ## The camera (C8) -/

theorem session_idle (s s1 : ViewerState) (e : Env) (evs : List Event)
    (h : updateVisualization s e = Outcome.idle s1) :
    session s (Event.tick e :: evs) = Outcome.idle s1 :: session s1 evs := by
  simp [session, h]

theorem session_done (s s1 : ViewerState) (e : Env) (fx : List Effect) (evs : List Event)
    (h : updateVisualization s e = Outcome.done s1 fx) :
    session s (Event.tick e :: evs) = Outcome.done s1 fx :: session s1 evs := by
  simp [session, h]

theorem session_fault (s : ViewerState) (e : Env) (fx : List Effect) (evs : List Event)
    (h : updateVisualization s e = Outcome.fault fx) :
    session s (Event.tick e :: evs) = [Outcome.fault fx] := by
  simp [session, h]

theorem session_hang (s : ViewerState) (e : Env) (fx : List Effect) (evs : List Event)
    (h : updateVisualization s e = Outcome.hang fx) :
    session s (Event.tick e :: evs) = [Outcome.hang fx] := by
  simp [session, h]

/-- An iteration that finds a new frame goes past both `continue`s. -/
theorem iteration_new_processed (s : ViewerState) (e : Env) (c : PointCloud2)
    (hc : s.cloud_ = some c) (hw : 0 < c.width) (hn : ptrEq s.cloud_old_ s.cloud_ = false) :
    (updateVisualization s e).processed = true := by
  by_cases hf : getFieldIndex c "rgb" = -1
  · rw [iteration_xyz s e c hc hw hn hf]
    exact (geometryBranch_inits _ _ _).2
  · by_cases hp : c.points = []
    · rw [iteration_rgb_empty s e c hc hw hn hf hp]
      rfl
    · exact (iteration_inits s e c hc hw hn hp).2

/-- The ways an iteration can go, with what each does to the camera. -/
theorem iteration_summary (s : ViewerState) (e : Env)
    (hs : ∀ c, s.cloud_ = some c → 0 < c.width → c.points ≠ []) :
    (∃ s1, updateVisualization s e = Outcome.idle s1 ∧ s1.cloud_ = s.cloud_ ∧
        s1.viewer_initialized_ = s.viewer_initialized_) ∨
      (cameraInits (updateVisualization s e).effects = (if s.viewer_initialized_ then 0 else 1) ∧
        ((∃ s1 fx, updateVisualization s e = Outcome.done s1 fx ∧ s1.cloud_ = s.cloud_ ∧
            s1.viewer_initialized_ = true) ∨
          (∃ fx, updateVisualization s e = Outcome.fault fx) ∨
          ∃ fx, updateVisualization s e = Outcome.hang fx)) := by
  rcases iteration_guard s e with ⟨-, s2, h2, a, -, b⟩ | ⟨c, hc, hw, hn, -⟩
  · exact Or.inl ⟨s2, h2, a, b⟩
  · right
    obtain ⟨t1, t2⟩ := iteration_inits s e c hc hw hn (hs c hc hw)
    refine ⟨t1, ?_⟩
    cases ht : updateVisualization s e with
    | idle s2 =>
      rw [ht] at t2
      exact absurd t2 (by simp [Outcome.processed])
    | done s2 fx2 =>
      obtain ⟨c4, e1, -, -, e2, -, d2, -⟩ := iteration_done s s2 e fx2 ht
      exact Or.inl ⟨s2, fx2, rfl, by rw [e1, e2], d2⟩
    | fault fx2 => exact Or.inr (Or.inl ⟨fx2, rfl⟩)
    | hang fx2 => exact Or.inr (Or.inr ⟨fx2, rfl⟩)

theorem session_inits_after (evs : List Event) (s : ViewerState)
    (hv : s.viewer_initialized_ = true) (hs : ∀ c, s.cloud_ = some c → 0 < c.width → c.points ≠ [])
    (he : ∀ c, Event.frame c ∈ evs → 0 < c.width → c.points ≠ []) :
    (session s evs).map (fun o => cameraInits o.effects) =
        (session s evs).map (fun _ => 0) ∧
      ∀ s1 fx, Outcome.done s1 fx ∈ session s evs → s1.viewer_initialized_ = true := by
  induction evs generalizing s with
  | nil => simp [session]
  | cons ev evs ih =>
    have he2 : ∀ c, Event.frame c ∈ evs → 0 < c.width → c.points ≠ [] := by
      intro c2 hc2
      exact he c2 (by simp [hc2])
    cases ev with
    | frame c =>
      simp only [session]
      apply ih _ _ _ he2
      · simpa [cloud_cb] using hv
      · intro c2 hc2
        simp only [cloud_cb, Option.some.injEq] at hc2
        subst hc2
        exact he _ (by simp)
    | tick e =>
      rcases iteration_summary s e hs with ⟨s2, h2, a, b⟩ | ⟨t1, ⟨s2, fx2, h2, a, b⟩ | ⟨fx2, h2⟩ |
        ⟨fx2, h2⟩⟩
      · obtain ⟨i1, i2⟩ := ih s2 (by rw [b, hv]) (by rw [a]; exact hs) he2
        rw [session_idle s s2 e evs h2, List.map_cons, List.map_cons, i1]
        refine ⟨rfl, ?_⟩
        intro s1 fx hm
        rcases List.mem_cons.1 hm with hm | hm
        · exact absurd hm (by simp)
        · exact i2 s1 fx hm
      · obtain ⟨i1, i2⟩ := ih s2 b (by rw [a]; exact hs) he2
        rw [h2, hv] at t1
        rw [session_done s s2 e fx2 evs h2, List.map_cons, List.map_cons, i1, t1]
        refine ⟨rfl, ?_⟩
        intro s1 fx hm
        rcases List.mem_cons.1 hm with hm | hm
        · injection hm with hm _
          rw [hm]
          exact b
        · exact i2 s1 fx hm
      · rw [h2, hv] at t1
        rw [session_fault s e fx2 evs h2]
        simp [t1]
      · rw [h2, hv] at t1
        rw [session_hang s e fx2 evs h2]
        simp [t1]

theorem session_inits_before (evs : List Event) (s : ViewerState)
    (hv : s.viewer_initialized_ = false) (hs : ∀ c, s.cloud_ = some c → 0 < c.width → c.points ≠ [])
    (he : ∀ c, Event.frame c ∈ evs → 0 < c.width → c.points ≠ []) :
    (session s evs).map (fun o => cameraInits o.effects) =
        markFirst ((session s evs).map Outcome.processed) ∧
      ∀ s1 fx, Outcome.done s1 fx ∈ session s evs → s1.viewer_initialized_ = true := by
  induction evs generalizing s with
  | nil => simp [session, markFirst]
  | cons ev evs ih =>
    have he2 : ∀ c, Event.frame c ∈ evs → 0 < c.width → c.points ≠ [] := by
      intro c2 hc2
      exact he c2 (by simp [hc2])
    cases ev with
    | frame c =>
      simp only [session]
      apply ih _ _ _ he2
      · simpa [cloud_cb] using hv
      · intro c2 hc2
        simp only [cloud_cb, Option.some.injEq] at hc2
        subst hc2
        exact he _ (by simp)
    | tick e =>
      rcases iteration_summary s e hs with ⟨s2, h2, a, b⟩ | ⟨t1, ⟨s2, fx2, h2, a, b⟩ | ⟨fx2, h2⟩ |
        ⟨fx2, h2⟩⟩
      · obtain ⟨i1, i2⟩ := ih s2 (by rw [b, hv]) (by rw [a]; exact hs) he2
        rw [session_idle s s2 e evs h2, List.map_cons, List.map_cons, i1]
        refine ⟨rfl, ?_⟩
        intro s1 fx hm
        rcases List.mem_cons.1 hm with hm | hm
        · exact absurd hm (by simp)
        · exact i2 s1 fx hm
      · obtain ⟨i1, i2⟩ := session_inits_after evs s2 b (by rw [a]; exact hs) he2
        rw [h2, hv] at t1
        rw [session_done s s2 e fx2 evs h2, List.map_cons, List.map_cons, i1, t1]
        refine ⟨by simp only [Outcome.processed, markFirst, List.map_map]; rfl, ?_⟩
        intro s1 fx hm
        rcases List.mem_cons.1 hm with hm | hm
        · injection hm with hm _
          rw [hm]
          exact b
        · exact i2 s1 fx hm
      · rw [h2, hv] at t1
        rw [session_fault s e fx2 evs h2]
        simp [t1, Outcome.processed, markFirst]
      · rw [h2, hv] at t1
        rw [session_hang s e fx2 evs h2]
        simp [t1, Outcome.processed, markFirst]

/-- C8: in a session that starts with `viewer_initialized_` false and whose frames of
non-zero width carry at least one point, the camera is initialised during the first iteration that processes a frame
and during no other one; every iteration that ran to its end on a frame leaves
`viewer_initialized_` true; and no iteration turns a true `viewer_initialized_` back to
false, whichever branch it takes. -/
theorem camera_initialised_once (s : ViewerState) (evs : List Event)
    (hv : s.viewer_initialized_ = false) (hs : ∀ c, s.cloud_ = some c → 0 < c.width → c.points ≠ [])
    (he : ∀ c, Event.frame c ∈ evs → 0 < c.width → c.points ≠ []) :
    (session s evs).map (fun o => cameraInits o.effects) =
        markFirst ((session s evs).map Outcome.processed) ∧
      (∀ s1 fx, Outcome.done s1 fx ∈ session s evs → s1.viewer_initialized_ = true) ∧
      (∀ s2 e2 s3, s2.viewer_initialized_ = true → (updateVisualization s2 e2).state? = some s3 →
        s3.viewer_initialized_ = true) := by
  obtain ⟨a, b⟩ := session_inits_before evs s hv hs he
  refine ⟨a, b, ?_⟩
  intro s2 e2 s3 hv2 h3
  cases ht : updateVisualization s2 e2 with
  | idle s4 =>
    rw [ht] at h3
    simp only [Outcome.state?, Option.some.injEq] at h3
    subst h3
    rcases iteration_guard s2 e2 with ⟨-, s5, h2, -, -, b2⟩ | ⟨c, hc, hw, hn, -⟩
    · rw [ht] at h2
      injection h2 with h2
      rw [h2, b2, hv2]
    · have := iteration_new_processed s2 e2 c hc hw hn
      rw [ht] at this
      exact absurd this (by simp [Outcome.processed])
  | done s4 fx4 =>
    obtain ⟨-, -, -, -, -, -, d2, -⟩ := iteration_done s2 s4 e2 fx4 ht
    rw [ht] at h3
    simp only [Outcome.state?, Option.some.injEq] at h3
    subst h3
    exact d2
  | fault fx4 =>
    rw [ht] at h3
    simp [Outcome.state?] at h3
  | hang fx4 =>
    rw [ht] at h3
    simp [Outcome.state?] at h3

/-- Witness of `camera_initialised_once`: a black frame, an idle iteration and a red frame;
the camera is initialised during the first iteration that processes a frame, only. -/
theorem camera_initialised_once_witness :
    startState.viewer_initialized_ = false ∧
      (session startState
          [Event.tick envQuiet, Event.frame frameBlack, Event.tick envQuiet, Event.tick envQuiet,
            Event.frame frameRed, Event.tick envQuiet]).map (fun o => cameraInits o.effects) =
        markFirst ((session startState
          [Event.tick envQuiet, Event.frame frameBlack, Event.tick envQuiet, Event.tick envQuiet,
            Event.frame frameRed, Event.tick envQuiet]).map Outcome.processed) :=
  ⟨rfl, (camera_initialised_once startState
      [Event.tick envQuiet, Event.frame frameBlack, Event.tick envQuiet, Event.tick envQuiet,
        Event.frame frameRed, Event.tick envQuiet] rfl (by decide)
      (by
        intro c hc
        simp only [List.mem_cons, Event.frame.injEq, List.not_mem_nil, false_or, or_false,
          reduceCtorEq] at hc
        rcases hc with rfl | rfl <;> decide)).1⟩

/-! ## The downsampling loop (C1, C2, C9) -/

theorem occupiedCells_ne_nil (cs : List (Int × Int × Int)) (h : cs ≠ []) :
    occupiedCells cs ≠ [] := by
  cases cs with
  | nil => exact absurd rfl h
  | cons c cs => simp [occupiedCells]

/-- The voxel grid keeps at least one sample of a cloud that has one. -/
theorem filter_ne_nil (cloud : PointCloudRGB) (v : ℚ) (h : cloud ≠ []) :
    filter cloud v ≠ [] := by
  unfold filter voxelGrid
  intro hnil
  rw [List.map_eq_nil_iff] at hnil
  exact occupiedCells_ne_nil _ (by simpa using h) hnil

theorem loopBody_iterate_voxel (k : Nat) (st : PointCloudRGB × ℚ) :
    (loopBody^[k] st).2 = st.2 + k * offset := by
  induction k generalizing st with
  | zero => simp
  | succ k ih =>
    rw [Function.iterate_succ_apply, ih]
    simp only [loopBody, Nat.cast_succ]
    ring

theorem loopBody_iterate_succ (k : Nat) (st : PointCloudRGB × ℚ) :
    loopBody^[k + 1] st =
      (filter (loopBody^[k] st).1 (st.2 + k * offset), st.2 + (k + 1) * offset) := by
  rw [Function.iterate_succ_apply']
  rw [loopBody, loopBody_iterate_voxel]
  congr 1
  ring

/-- Whatever the loop returns has at most the desired number of points. -/
theorem downsampleLoop_le (d : Int) (fuel : Nat) (st r : PointCloudRGB × ℚ)
    (h : downsampleLoop d fuel st = some r) : r.1.length ≤ toSizeT d := by
  induction fuel generalizing st with
  | zero =>
    unfold downsampleLoop at h
    split at h
    · exact absurd h (by simp)
    · rename_i hle
      injection h with h
      subst h
      omega
  | succ n ih =>
    unfold downsampleLoop at h
    split at h
    · exact ih _ h
    · rename_i hle
      injection h with h
      subst h
      omega

/-- A cloud that is already small enough leaves the loop unchanged. -/
theorem downsampleLoop_small (d : Int) (fuel : Nat) (st : PointCloudRGB × ℚ)
    (h : st.1.length ≤ toSizeT d) : downsampleLoop d fuel st = some st := by
  have h2 : ¬ st.1.length > toSizeT d := by omega
  cases fuel <;> simp [downsampleLoop, h2]

/-- The result of the loop is the first iterate of the body with few enough points. -/
theorem downsampleLoop_iterate (d : Int) (fuel : Nat) (st r : PointCloudRGB × ℚ)
    (h : downsampleLoop d fuel st = some r) :
    ∃ k, k ≤ fuel ∧ r = loopBody^[k] st ∧
      ∀ j, j < k → toSizeT d < (loopBody^[j] st).1.length := by
  induction fuel generalizing st with
  | zero =>
    unfold downsampleLoop at h
    split at h
    · exact absurd h (by simp)
    · injection h with h
      exact ⟨0, le_refl _, by simp [h], by intro j hj; omega⟩
  | succ n ih =>
    unfold downsampleLoop at h
    split at h
    · rename_i hgt
      obtain ⟨k, hk, hr, hj⟩ := ih _ h
      refine ⟨k + 1, by omega, by rw [Function.iterate_succ_apply]; exact hr, ?_⟩
      intro j hj2
      cases j with
      | zero => simpa using hgt
      | succ j =>
        rw [Function.iterate_succ_apply]
        exact hj j (by omega)
    · injection h with h
      exact ⟨0, by omega, by simp [h], by intro j hj; omega⟩

/-- The loop stops once an iterate of the body has few enough points. -/
theorem downsampleLoop_stops (d : Int) (k : Nat) (st : PointCloudRGB × ℚ)
    (h : (loopBody^[k] st).1.length ≤ toSizeT d) (fuel : Nat) (hf : k ≤ fuel) :
    (downsampleLoop d fuel st).isSome = true := by
  induction k generalizing st fuel with
  | zero =>
    rw [downsampleLoop_small d fuel st (by simpa using h)]
    rfl
  | succ k ih =>
    cases fuel with
    | zero => omega
    | succ n =>
      unfold downsampleLoop
      split
      · exact ih _ (by rw [← Function.iterate_succ_apply]; exact h) n (by omega)
      · rfl

/-- The loop does not stop while every iterate of the body has too many points. -/
theorem downsampleLoop_none (d : Int) (fuel : Nat) (st : PointCloudRGB × ℚ)
    (h : ∀ k, k ≤ fuel → toSizeT d < (loopBody^[k] st).1.length) :
    downsampleLoop d fuel st = none := by
  cases hr : downsampleLoop d fuel st with
  | none => rfl
  | some r =>
    obtain ⟨k, hk, hr2, -⟩ := downsampleLoop_iterate d fuel st r hr
    have h1 := downsampleLoop_le d fuel st r hr
    have h2 := h k hk
    rw [← hr2] at h2
    omega

theorem loopBody_iterate_ne_nil (k : Nat) (st : PointCloudRGB × ℚ) (h : st.1 ≠ []) :
    (loopBody^[k] st).1 ≠ [] := by
  induction k generalizing st with
  | zero => simpa using h
  | succ k ih =>
    rw [Function.iterate_succ_apply]
    exact ih _ (filter_ne_nil _ _ h)

theorem toSizeT_desired_points (m : Int) (h0 : 0 ≤ m) (h1 : m < 2 ^ 31) :
    toSizeT (desired_points m) = m.toNat / 35 := by
  unfold toSizeT desired_points file_point_size
  rw [Int.tdiv_eq_ediv h0 (by norm_num)]
  have h2 : (0 : Int) ≤ m / 35 := Int.ediv_nonneg h0 (by norm_num)
  have h3 : m / 35 < 2 ^ 64 := by
    have : m / 35 ≤ m := Int.ediv_le_self _ h0
    omega
  rw [Int.emod_eq_of_lt h2 h3]
  omega

/-- The coloured branch when a save is requested and text export is on: it ends exactly when
the downsampling loop does, and then the text file holds the rows of the downsampled cloud. -/
theorem colouredBranch_export (s : ViewerState) (e : Env) (fx : List Effect)
    (hs : s.save_cloud_ = true) (hne : s.cloud_xyz_rgb ≠ []) (hg : s.save_cloud_webgl_ = true) :
    (∀ s1 fx1, colouredBranch s e fx = Outcome.done s1 fx1 →
        ∃ st, downsampleLoop (desired_points s.max_ascii_file_size_) e.fuel
            (s.cloud_xyz_rgb, voxel_size0) = some st ∧
          textFiles fx1 = textFiles fx ++ [(textFilename s.pcd_filename_,
            st.1.map (fun q => Line.xyzrgb q.x q.y q.z q.r q.g q.b))]) ∧
      (∀ st, downsampleLoop (desired_points s.max_ascii_file_size_) e.fuel
            (s.cloud_xyz_rgb, voxel_size0) = some st →
        ∃ s1 fx1, colouredBranch s e fx = Outcome.done s1 fx1) := by
  obtain ⟨h1, -, h3, h4, h5, h6, -⟩ := initCameraOnce_cloud s
  obtain ⟨-, h7, -⟩ := initCameraOnce_effects s
  have hpos : 0 < s.cloud_xyz_rgb.length := List.length_pos.2 hne
  unfold colouredBranch
  simp only [h1, h3, h4, h5, h6, hs, hg, hpos, gt_iff_lt, decide_True, Bool.and_self, if_true]
  constructor
  · intro s1 fx1 h
    split at h
    · exact absurd h (by simp)
    · rename_i st hst
      injection h with _ h
      subst h
      exact ⟨st, hst, by simp [textFiles_append, textFiles, textFiles_logSave, h7, linesRGB]⟩
  · intro st hst
    rw [hst]
    exact ⟨_, _, rfl⟩

/-- C1: when a new frame with valid colour is saved with text export on and a byte budget
`0 ≤ max_ascii_file_size_` (an `int`), every iteration that comes to its end has written one
text file: one row `x,y,z,r,g,b` per point of the cloud the downsampling loop ended with, at
most `max_ascii_file_size_ / 35` rows (at most 10000 for a budget of 350000 bytes).  The
iteration does come to its end, with that file, as soon as the loop does; and a frame that
already has at most `max_ascii_file_size_ / 35` points is exported point by point as it
is. -/
theorem text_export_within_budget (s : ViewerState) (e : Env) (c : PointCloud2)
    (p : PointRGB) (ps : List PointRGB) (hc : s.cloud_ = some c) (hw : 0 < c.width)
    (hn : ptrEq s.cloud_old_ s.cloud_ = false) (hf : getFieldIndex c "rgb" ≠ -1)
    (hp : c.points = p :: ps) (h0 : ¬ p.rgbIsZero) (hs : s.save_cloud_ = true ∨ e.space = true)
    (hg : s.save_cloud_webgl_ = true) (hm0 : 0 ≤ s.max_ascii_file_size_)
    (hm1 : s.max_ascii_file_size_ < 2 ^ 31) :
    (∀ s1 fx, updateVisualization s e = Outcome.done s1 fx →
        ∃ st, downsampleLoop (desired_points s.max_ascii_file_size_) e.fuel
            (c.points, voxel_size0) = some st ∧
          textFiles fx = [(textFilename s.pcd_filename_,
            st.1.map (fun q => Line.xyzrgb q.x q.y q.z q.r q.g q.b))] ∧
          (st.1.map (fun q => Line.xyzrgb q.x q.y q.z q.r q.g q.b)).length ≤
            s.max_ascii_file_size_.toNat / 35 ∧
          (s.max_ascii_file_size_ = 350000 →
            (st.1.map (fun q => Line.xyzrgb q.x q.y q.z q.r q.g q.b)).length ≤ 10000)) ∧
      (∀ st, downsampleLoop (desired_points s.max_ascii_file_size_) e.fuel
            (c.points, voxel_size0) = some st →
        ∃ s1 fx, updateVisualization s e = Outcome.done s1 fx ∧
          textFiles fx = [(textFilename s.pcd_filename_,
            st.1.map (fun q => Line.xyzrgb q.x q.y q.z q.r q.g q.b))] ∧
          (st.1.map (fun q => Line.xyzrgb q.x q.y q.z q.r q.g q.b)).length ≤
            s.max_ascii_file_size_.toNat / 35) ∧
      (c.points.length ≤ s.max_ascii_file_size_.toNat / 35 →
        ∃ s1 fx, updateVisualization s e = Outcome.done s1 fx ∧
          textFiles fx = [(textFilename s.pcd_filename_,
            c.points.map (fun q => Line.xyzrgb q.x q.y q.z q.r q.g q.b))]) := by
  obtain ⟨-, g2, g3, g4, g5, -, -⟩ := spinOnce_fields s e
  have hsave : (spinOnce s e).save_cloud_ = true := by
    rcases hs with hs | hs <;> simp [g2, hs]
  have hd := toSizeT_desired_points s.max_ascii_file_size_ hm0 hm1
  obtain ⟨k1, k2⟩ := colouredBranch_export
    { spinOnce s e with rgb := true, cloud_xyz_rgb := c.points, cloud_old_ := some c,
                        fields := fieldsPointRGB } e [Effect.removePointCloud]
    hsave (by simp [hp]) (by simp [g3, hg])
  rw [iteration_coloured s e c p ps hc hw hn hf hp h0]
  have key : ∀ s1 fx,
      colouredBranch
        { spinOnce s e with rgb := true, cloud_xyz_rgb := c.points, cloud_old_ := some c,
                            fields := fieldsPointRGB } e [Effect.removePointCloud] =
        Outcome.done s1 fx →
      ∃ st, downsampleLoop (desired_points s.max_ascii_file_size_) e.fuel
          (c.points, voxel_size0) = some st ∧
        textFiles fx = [(textFilename s.pcd_filename_,
          st.1.map (fun q => Line.xyzrgb q.x q.y q.z q.r q.g q.b))] ∧
        (st.1.map (fun q => Line.xyzrgb q.x q.y q.z q.r q.g q.b)).length ≤
          s.max_ascii_file_size_.toNat / 35 := by
    intro s1 fx h
    obtain ⟨st, hst, htf⟩ := k1 s1 fx h
    have hst2 : downsampleLoop (desired_points s.max_ascii_file_size_) e.fuel
        (c.points, voxel_size0) = some st := by simpa [g5] using hst
    have hle := downsampleLoop_le _ _ _ _ hst2
    rw [hd] at hle
    exact ⟨st, hst2, by simpa [textFiles, g4] using htf, by simpa using hle⟩
  refine ⟨?_, ?_, ?_⟩
  · intro s1 fx h
    obtain ⟨st, hst, htf, hle⟩ := key s1 fx h
    refine ⟨st, hst, htf, hle, ?_⟩
    intro h35
    rw [h35] at hle
    exact hle
  · intro st hst
    obtain ⟨s1, fx, h⟩ := k2 st (by simpa [g5] using hst)
    obtain ⟨st2, hst2, htf, hle⟩ := key s1 fx h
    rw [hst] at hst2
    injection hst2 with hst2
    subst hst2
    exact ⟨s1, fx, h, htf, hle⟩
  · intro hsmall
    have hst := downsampleLoop_small (desired_points s.max_ascii_file_size_) e.fuel
      (c.points, voxel_size0) (by rw [hd]; exact hsmall)
    obtain ⟨s1, fx, h⟩ := k2 (c.points, voxel_size0) (by simpa [g5] using hst)
    obtain ⟨st2, hst2, htf, -⟩ := key s1 fx h
    rw [hst] at hst2
    injection hst2 with hst2
    subst hst2
    exact ⟨s1, fx, h, htf⟩

/-- Witness of `text_export_within_budget`: three red points at x = 0.2 mm, 0.4 mm and
1.1 mm saved with a budget of 40 bytes (target 1).  The downsampling loop runs twice and the
text file holds the one point it ends with. -/
theorem text_export_within_budget_witness :
    ∃ s1 fx,
      updateVisualization (cloud_cb (initialState "pointcloud_file.pcd" true 40) frameThree)
        envSave = Outcome.done s1 fx ∧
      textFiles fx = [(textFilename "pointcloud_file.pcd",
        [Line.xyzrgb (7 / 10000) 0 0 255 0 0])] ∧
      [Line.xyzrgb (7 / 10000) 0 0 255 0 0].length ≤ (40 : Int).toNat / 35 :=
  (text_export_within_budget (cloud_cb (initialState "pointcloud_file.pcd" true 40) frameThree)
    envSave frameThree ⟨2 / 10000, 0, 0, 255, 0, 0, 0⟩
    [⟨4 / 10000, 0, 0, 255, 0, 0, 0⟩, ⟨11 / 10000, 0, 0, 255, 0, 0, 0⟩] rfl (by decide)
    (by decide) (by decide) rfl (by decide) (Or.inr rfl) rfl (by decide) (by decide)).2.1
    ([⟨7 / 10000, 0, 0, 255, 0, 0, 0⟩], 14 / 10000) (by decide!)

/-- A non-empty cloud with target 0 is filtered for ever. -/
theorem downsampleLoop_target_zero (d : Int) (st : PointCloudRGB × ℚ) (hne : st.1 ≠ [])
    (hd : toSizeT d = 0) (fuel : Nat) : downsampleLoop d fuel st = none := by
  apply downsampleLoop_none
  intro k _
  rw [hd]
  exact List.length_pos.2 (loopBody_iterate_ne_nil k st hne)

/-- C9, as amended: every iteration of the downsampling loop applies the voxel-grid filter
to the OUTPUT of the previous iteration (the working cloud is overwritten), with a voxel
size that starts at 0.001 and grows by 0.0002 per iteration; the cloud the loop ends with
is one of these iterates. -/
theorem loop_filters_previous_output (cloud : PointCloudRGB) :
    (∀ k : Nat, loopBody^[k + 1] (cloud, voxel_size0) =
        (filter (loopBody^[k] (cloud, voxel_size0)).1 (1 / 1000 + k * (2 / 10000)),
          (1 / 1000 + (k + 1) * (2 / 10000) : ℚ))) ∧
      (∀ d fuel r, downsampleLoop d fuel (cloud, voxel_size0) = some r →
        ∃ k, k ≤ fuel ∧ r = loopBody^[k] (cloud, voxel_size0)) := by
  constructor
  · intro k
    rw [loopBody_iterate_succ]
    simp [voxel_size0, offset]
  · intro d fuel r h
    obtain ⟨k, hk, hr, -⟩ := downsampleLoop_iterate d fuel _ r h
    exact ⟨k, hk, hr⟩

/-- C9, as stated, fails: for three points on the x axis and target 1 the loop runs two
iterations, and the cloud it ends with differs from the filter applied to the original
frame at the voxel size 0.001 + (2 - 1) * 0.0002 of the second iteration. -/
theorem second_iteration_filters_first_output :
    downsampleLoop 1 10 (frameThree.points, voxel_size0) =
        some (loopBody^[2] (frameThree.points, voxel_size0)) ∧
      (loopBody^[2] (frameThree.points, voxel_size0)).1 ≠
        filter frameThree.points (1 / 1000 + (2 - 1) * (2 / 10000)) := by
  decide!

/-! ## Where the geometry-only export and the file name do as intended -/

theorem geometryRest_export (s : ViewerState) (e : Env) (fx : List Effect)
    (hs : s.save_cloud_ = true) (hne : s.cloud_xyz ≠ []) (hg : s.save_cloud_webgl_ = true)
    (t : List (String × List Line))
    (ht : t = textFiles fx ++ [(textFilename s.pcd_filename_,
      s.cloud_xyz.map (fun q => Line.xyz q.x q.y q.z))]) :
    ∃ s1 fx1, geometryRest s e fx = Outcome.done s1 fx1 ∧ textFiles fx1 = t := by
  have hpos : 0 < s.cloud_xyz.length := List.length_pos.2 hne
  unfold geometryRest
  simp only [hs, hg, hpos, gt_iff_lt, decide_True, Bool.and_self, if_true]
  exact ⟨_, _, rfl, by simp [ht, textFiles_append, textFiles, textFiles_logSave, linesXYZ]⟩

theorem geometryBranch_export (s : ViewerState) (e : Env) (fx : List Effect) (q : PointRGB)
    (qs : List PointRGB) (hb : s.cloud_xyz_rgb = q :: qs) (hs : s.save_cloud_ = true)
    (hne : s.cloud_xyz ≠ []) (hg : s.save_cloud_webgl_ = true) :
    ∃ s1 fx1, geometryBranch s e fx = Outcome.done s1 fx1 ∧
      textFiles fx1 = textFiles fx ++ [(textFilename s.pcd_filename_,
        (if q.rgbIsZero then s.cloud_xyz_rgb.map PointRGB.toPoint else s.cloud_xyz).map
          (fun r => Line.xyz r.x r.y r.z))] := by
  have hg2 := getFieldIndexRGB_rgb
  obtain ⟨i1, i2, i3, i4, i5, -, -⟩ := initCameraOnce_cloud s
  obtain ⟨-, i7, -⟩ := initCameraOnce_effects s
  unfold geometryBranch
  simp only [getFieldIndexRGB, ne_eq, hg2, not_false_eq_true, if_true, i1, hb, List.head?_cons]
  by_cases h0 : q.rgbIsZero
  · simp only [h0, if_true]
    refine geometryRest_export _ _ _ ?_ ?_ ?_ _ ?_
    · simp [i3, hs]
    · simp [copyPointCloud]
    · simp [i4, hg]
    · simp [textFiles_append, i7, i5, i1, hb, copyPointCloud]
  · simp only [h0, if_false]
    refine geometryRest_export _ _ _ ?_ ?_ ?_ _ ?_
    · simp [i3, hs]
    · simpa [i2] using hne
    · simp [i4, hg]
    · simp [textFiles_append, i7, i5, i2]

/-- A frame with a declared but zero colour field is exported point by point, in any state. -/
theorem black_frame_export (s : ViewerState) (e : Env) (c : PointCloud2) (p : PointRGB)
    (ps : List PointRGB) (hc : s.cloud_ = some c) (hw : 0 < c.width)
    (hn : ptrEq s.cloud_old_ s.cloud_ = false) (hf : getFieldIndex c "rgb" ≠ -1)
    (hp : c.points = p :: ps) (h0 : p.rgbIsZero) (hs : s.save_cloud_ = true ∨ e.space = true)
    (hg : s.save_cloud_webgl_ = true) :
    ∃ s1 fx, updateVisualization s e = Outcome.done s1 fx ∧
      textFiles fx = [(textFilename s.pcd_filename_,
        c.points.map (fun q => Line.xyz q.x q.y q.z))] := by
  obtain ⟨-, g2, g3, g4, -, -, -⟩ := spinOnce_fields s e
  obtain ⟨-, -, i3, i4, i5, -, -⟩ := initCameraOnce_cloud (spinOnce s e)
  have hsave : (spinOnce s e).save_cloud_ = true := by
    rcases hs with hs | hs <;> simp [g2, hs]
  rw [iteration_black s e c p ps hc hw hn hf hp h0]
  refine geometryRest_export _ _ _ ?_ ?_ ?_ _ ?_
  · simp [i3, hsave]
  · simp [copyPointCloud, hp]
  · simp [i4, g3, hg]
  · rw [textFiles_append]
    cases s.viewer_initialized_ <;>
      simp [textFiles, i5, g4, copyPointCloud, PointRGB.toPoint, hp]

/-- A geometry-only frame is exported point by point when the first sample left in the
colour buffer has a non-zero colour; when that sample is black, the buffer is exported in
place of the frame. -/
theorem xyz_frame_export (s : ViewerState) (e : Env) (c : PointCloud2) (q : PointRGB)
    (qs : List PointRGB) (hc : s.cloud_ = some c) (hw : 0 < c.width)
    (hn : ptrEq s.cloud_old_ s.cloud_ = false) (hf : getFieldIndex c "rgb" = -1)
    (hne : c.points ≠ []) (hb : s.cloud_xyz_rgb = q :: qs)
    (hs : s.save_cloud_ = true ∨ e.space = true) (hg : s.save_cloud_webgl_ = true) :
    ∃ s1 fx, updateVisualization s e = Outcome.done s1 fx ∧
      textFiles fx = [(textFilename s.pcd_filename_,
        (if q.rgbIsZero then s.cloud_xyz_rgb.map PointRGB.toPoint
          else c.points.map PointRGB.toPoint).map (fun r => Line.xyz r.x r.y r.z))] := by
  obtain ⟨-, g2, g3, g4, -, g6, -⟩ := spinOnce_fields s e
  have hsave : (spinOnce s e).save_cloud_ = true := by
    rcases hs with hs | hs <;> simp [g2, hs]
  rw [iteration_xyz s e c hc hw hn hf]
  obtain ⟨s1, fx1, h1, h2⟩ := geometryBranch_export
    { spinOnce s e with rgb := false, cloud_xyz := fromROSMsgXYZ c, fields := fieldsPoint,
                        cloud_old_ := some c } e [Effect.removePointCloud] q qs
    (by simp [g6, hb]) hsave (by simpa [fromROSMsgXYZ] using hne) (by simp [g3, hg])
  refine ⟨s1, fx1, h1, ?_⟩
  rw [h2]
  simp [textFiles, g4, g6, fromROSMsgXYZ]

theorem lastIndexOf_lt (c : Char) (l : List Char) (i : Nat) (h : lastIndexOf c l = some i) :
    i < l.length := by
  induction l generalizing i with
  | nil => simp [lastIndexOf] at h
  | cons a l ih =>
    unfold lastIndexOf at h
    split at h
    · rename_i j hj
      injection h with h
      have := ih j hj
      simp only [List.length_cons]
      omega
    · split at h
      · injection h with h
        simp only [List.length_cons]
        omega
      · exact absurd h (by simp)

/-- The rule the code follows for the name of the text file, for a path shorter than `2^31`
characters: the path is cut at its last dot, wherever that dot lies, and `.txt` is appended;
a path without a dot is kept whole. -/
theorem textFilename_eq (s : String) (h : s.length < 2 ^ 31) :
    textFilename s =
      match lastIndexOf '.' s.data with
      | some i => String.mk (s.data.take i) ++ ".txt"
      | none => s ++ ".txt" := by
  unfold textFilename find_last_of substr0
  cases hl : lastIndexOf '.' s.data with
  | none =>
    have h1 : toSizeT (toInt32 npos) = 2 ^ 64 - 1 := by decide
    have h2 : s.data.length ≤ 2 ^ 64 - 1 := by
      have : s.data.length = s.length := rfl
      omega
    simp only [h1]
    rw [List.take_of_length_le h2]
  | some i =>
    have h1 := lastIndexOf_lt _ _ _ hl
    have h2 : s.data.length = s.length := rfl
    have h3 : toSizeT (toInt32 i) = i := by
      unfold toSizeT toInt32
      omega
    simp only [h3]

/-! ## An unreachable target (C2) -/

/-- C2: with a byte budget of 34 (target 0) the iteration that saves a red one-point frame
never comes to its end, however many iterations of the downsampling loop are followed: the
loop of lines 192--197 has no exit but `size <= desired_points`, and the voxel grid always
leaves at least one point of a cloud that has one.  The iteration is still inside that loop,
after the native save, whatever the number of iterations followed. -/
theorem downsampling_never_stops_at_target_zero :
    (¬ ∃ fuel s1 fx,
        updateVisualization (cloud_cb (initialState "pointcloud_file.pcd" true 34) frameRed)
          { space := true, pcd_ok := true, fuel := fuel } = Outcome.done s1 fx) ∧
      ¬ ∃ fuel,
        updateVisualization (cloud_cb (initialState "pointcloud_file.pcd" true 34) frameRed)
          { space := true, pcd_ok := true, fuel := fuel } ≠
        Outcome.hang [Effect.removePointCloud, Effect.initCamera frameRed.points,
          Effect.addPointCloudRGB frameRed.points,
          Effect.savePCDFileRGB "pointcloud_file.pcd" frameRed.points,
          Effect.logSaved "pointcloud_file.pcd"] := by
  have hnone : ∀ fuel, downsampleLoop (desired_points 34) fuel
      (frameRed.points, voxel_size0) = none :=
    downsampleLoop_target_zero (desired_points 34) (frameRed.points, voxel_size0)
      (by decide) (by decide)
  have hrun : ∀ fuel,
      updateVisualization (cloud_cb (initialState "pointcloud_file.pcd" true 34) frameRed)
          { space := true, pcd_ok := true, fuel := fuel } =
        Outcome.hang [Effect.removePointCloud, Effect.initCamera frameRed.points,
          Effect.addPointCloudRGB frameRed.points,
          Effect.savePCDFileRGB "pointcloud_file.pcd" frameRed.points,
          Effect.logSaved "pointcloud_file.pcd"] := by
    intro fuel
    rw [iteration_coloured (cloud_cb (initialState "pointcloud_file.pcd" true 34) frameRed)
      { space := true, pcd_ok := true, fuel := fuel } frameRed ⟨1, 1, 1, 255, 0, 0, 0⟩ [] rfl
      (by decide) (by decide) (by decide) rfl (by decide)]
    unfold colouredBranch
    have hne : frameRed.points ≠ [] := by decide
    simp [initCameraOnce, spinOnce, keyboardEventOccurred, cloud_cb, initialState, hnone,
      logSave, hne]
  constructor
  · rintro ⟨fuel, s1, fx, h⟩
    rw [hrun fuel] at h
    exact absurd h (by simp)
  · rintro ⟨fuel, h⟩
    exact h (hrun fuel)

end PointcloudViewer
